import Mathlib

/-!
# Verification of the Notes-Sticky GNOME extension core

Shallow embedding of the ID-indexed persistence and lifecycle model of the
Notes (sticky) extension (`extension.js`, which contains the `NotesManager`
class and the `NoteBox` class, plus the menus file).

Modelling conventions:
* JavaScript numbers are modelled as integers (`Int`); the claims under study
  only concern integer-valued clamping, flooring to minimums and defaulting,
  so fractional parts are irrelevant (`Math.floor` is the identity here).
  `NaN` is representable where the source tests for it: `JsNum := Option Int`
  with `none` standing for `NaN` (or a JSON value whose `Number()` is `NaN`),
  and `JsVal` additionally represents `undefined` where destructuring a short
  array can produce it.
* `Math.random()`-based position sampling is modelled by an explicit stream
  `rng : Nat → Int × Int` together with a cursor; each call to the sampling
  loop consumes entries in order.  That every sample lies inside the sampling
  rectangle (`[0, width-300] × [0, height-100]`) is a hypothesis
  (`RngInBounds`) reflecting `Math.random() * (bound)`.
* The file system (`<id>_state` / `<id>_text` records) is a `Store` of two
  partial maps; file mutations are returned as explicit `FsEvent` lists in
  source order and folded into the store by `Store.apply`.
* UI operations (style strings, actors, layers, menus, logging) have no
  observable effect on the persisted or in-memory note state modelled here
  and are omitted; comments mark the omissions.
-/

/-- A JavaScript number that the source may test with `isNaN`:
`none` stands for `NaN`. -/
abbrev JsNum := Option Int

/-- A JavaScript value flowing into `_applyColor`: a number, `NaN`, or
`undefined` (from destructuring a short array). -/
inductive JsVal
  | num (n : Int)
  | nan
  | undefined
deriving DecidableEq

/-- The primary monitor geometry (`Main.layoutManager.primaryMonitor`). -/
structure Monitor where
  width : Int
  height : Int

/-- Ambient environment: monitor geometry and the `Math.random()` stream. -/
structure Env where
  monitor : Monitor
  rng : Nat → Int × Int

/-- The hypothesis that every sample of the position stream lies in the
rectangle actually sampled by `_computeRandomPosition`:
`Math.random() * (width - 300)` and `Math.random() * (height - 100)`. -/
def RngInBounds (env : Env) : Prop :=
  ∀ j : Nat, 0 ≤ (env.rng j).1 ∧ (env.rng j).1 ≤ env.monitor.width - 300 ∧
    0 ≤ (env.rng j).2 ∧ (env.rng j).2 ≤ env.monitor.height - 100

/-- The JSON record stored in an `<id>_state` file.  Numeric fields are
`JsNum` because `_loadState` pipes them through `Number(...)`, which yields
`NaN` (`none`) for missing or non-numeric JSON values. -/
structure StateRec where
  x : JsNum
  y : JsNum
  color : String
  width : JsNum
  height : JsNum
  fontSize : JsNum
  entryVisible : Bool
  isBold : Bool
deriving DecidableEq

/-- Content of an `<id>_state` file: either unparsable (JSON.parse throws)
or a parsed record. -/
inductive StateFile
  | malformed
  | wellFormed (sr : StateRec)
deriving DecidableEq

/-- In-memory state of one note (`NoteBox` fields relevant to the claims). -/
structure Note where
  id : Nat
  x : JsNum
  y : JsNum
  width : Int
  height : Int
  fontSize : Int
  customColor : String
  fontColor : String
  entryVisible : Bool
  isBold : Bool
  text : String
deriving DecidableEq

instance : Inhabited Note :=
  ⟨{ id := 0, x := none, y := none, width := 250, height := 180, fontSize := 12,
     customColor := "245,176,65", fontColor := "", entryVisible := true,
     isBold := false, text := "" }⟩

/-- A file-system mutation performed by the source code. -/
inductive FsAct
  | writeState (sr : StateRec)
  | writeText (s : String)
  | removeState
  | removeText
deriving DecidableEq

/-- A file-system mutation applied to the records of one note ID. -/
abbrev FsEvent := Nat × FsAct

/-- The notes data directory: per-ID state and text records. -/
structure Store where
  state : Nat → Option StateFile
  text : Nat → Option String

/-- Apply one file mutation to the store. -/
def Store.apply1 (st : Store) (e : FsEvent) : Store :=
  match e.2 with
  | .writeState sr =>
      { st with state := fun j => if j = e.1 then some (.wellFormed sr) else st.state j }
  | .writeText s =>
      { st with text := fun j => if j = e.1 then some s else st.text j }
  | .removeState =>
      { st with state := fun j => if j = e.1 then none else st.state j }
  | .removeText =>
      { st with text := fun j => if j = e.1 then none else st.text j }

/-- Apply a list of file mutations in order. -/
def Store.apply (st : Store) (es : List FsEvent) : Store :=
  es.foldl Store.apply1 st

/-- An empty notes data directory. -/
def emptyStore : Store := { state := fun _ => none, text := fun _ => none }

/-- `const MIN_WIDTH = 200`. -/
def MIN_WIDTH : Int := 200

/-- `const MIN_HEIGHT = 75`. -/
def MIN_HEIGHT : Int := 75

/-- JavaScript `v || d` for an integer-valued `v` (`0` is falsy). -/
def jsOrI (v d : Int) : Int := if v = 0 then d else v

/-- JavaScript `Number(v) || d` for a JSON value `v` (`NaN` and `0` are
falsy). -/
def jsOr (v : JsNum) (d : Int) : Int :=
  match v with
  | some n => if n = 0 then d else n
  | none => d

/-- One existing note blocks a candidate position
(`Math.abs(note._x - x) < 230 && Math.abs(note._y - y) < 100`); comparisons
against `NaN` coordinates are false in JavaScript, so a `NaN`-positioned note
never blocks. -/
def blocks (note : Note) (x y : Int) : Bool :=
  match note.x, note.y with
  | some nx, some ny => decide ((nx - x).natAbs < 230) && decide ((ny - y).natAbs < 100)
  | _, _ => false

/-- `NotesManager.areCoordsUsable`. -/
def areCoordsUsable (notes : List Note) (x y : Int) : Bool :=
  ! notes.any (fun note => blocks note x y)

/-- The attempt loop of `NoteBox._computeRandomPosition`: up to `fuel`
samples, returning the first usable one, or the last sample when all fail. -/
def crpGo (env : Env) (others : List Note) : Nat → Nat → (Int × Int) × Nat
  | 0, k => (env.rng k, k + 1)
  | fuel + 1, k =>
      let p := env.rng k
      if areCoordsUsable others p.1 p.2 then (p, k + 1)
      else if fuel = 0 then (p, k + 1)
      else crpGo env others fuel (k + 1)

/-- `NoteBox._computeRandomPosition`: 15 bounded rejection-sampling attempts
against the manager's current note list. -/
def computeRandomPosition (env : Env) (others : List Note) (k : Nat) :
    (Int × Int) × Nat :=
  crpGo env others 15 k

/-- `NoteBox._setNotePosition`: normalize the size
(`Math.max(this._width || 250, MIN_WIDTH)` and the height analogue),
re-randomize a `NaN` position, then clamp the position into
`[0, monitor.width - width] × [0, monitor.height - height]`.
The actor-level `set_size`/`set_position` calls are UI effects. -/
def setNotePosition (env : Env) (others : List Note) (n : Note) (k : Nat) :
    Note × Nat :=
  let n := { n with width := max (jsOrI n.width 250) MIN_WIDTH,
                    height := max (jsOrI n.height 180) MIN_HEIGHT }
  let (n, k) :=
    match n.x, n.y with
    | some _, some _ => (n, k)
    | _, _ =>
        let (p, k') := computeRandomPosition env others k
        ({ n with x := some p.1, y := some p.2 }, k')
  match n.x, n.y with
  | some px, some py =>
      ({ n with x := some (max 0 (min px (env.monitor.width - n.width))),
                y := some (max 0 (min py (env.monitor.height - n.height))) }, k)
  | _, _ => (n, k)

/-- The JSON record `_saveState` serializes from the in-memory fields
(`Math.floor` on the integer model is the identity). -/
def Note.toStateRec (n : Note) : StateRec :=
  { x := n.x, y := n.y, color := n.customColor, width := some n.width,
    height := some n.height, fontSize := some n.fontSize,
    entryVisible := n.entryVisible, isBold := n.isBold }

/-- `NoteBox._saveState`: if the position is `NaN`, re-randomize it and run
`_setNotePosition`; then serialize the record.  No clamping happens on a
non-`NaN` position.  Returns the (possibly repaired) note and the record
written to `<id>_state`. -/
def saveState (env : Env) (others : List Note) (n : Note) (k : Nat) :
    Note × StateRec × Nat :=
  let (n, k) :=
    if n.x = none ∨ n.y = none then
      let (p, k') := computeRandomPosition env others k
      setNotePosition env others { n with x := some p.1, y := some p.2 } k'
    else (n, k)
  (n, n.toStateRec, k)

/-- `Number.isNaN(c)` check of `_applyColor`: a `NaN` component defaults to
255 (an `undefined` component is not `NaN` and passes through). -/
def jsValDefaultNaN255 : JsVal → JsVal
  | .nan => .num 255
  | v => v

/-- JavaScript `Math.max(a, v)`: `NaN`/`undefined` poison to `NaN`. -/
def jsMax (a : Int) : JsVal → JsVal
  | .num n => .num (max a n)
  | _ => .nan

/-- JavaScript `Math.min(v, b)`: `NaN`/`undefined` poison to `NaN`. -/
def jsMin (v : JsVal) (b : Int) : JsVal :=
  match v with
  | .num n => .num (min n b)
  | _ => .nan

/-- The per-component pipeline of `_applyColor`:
default `NaN` to 255, then `Math.min(Math.max(0, c), 255)`. -/
def clampColorVal (v : JsVal) : JsVal :=
  jsMin (jsMax 0 (jsValDefaultNaN255 v)) 255

/-- JavaScript `toString()` of a component after clamping. -/
def jsValToString : JsVal → String
  | .num n => toString n
  | .nan => "NaN"
  | .undefined => "undefined"

/-- JavaScript `r + g + b > 250`: any `NaN`/`undefined` operand makes the
comparison false. -/
def jsSumGT250 (r g b : JsVal) : Bool :=
  match r, g, b with
  | .num x, .num y, .num z => decide (x + y + z > 250)
  | _, _, _ => false

/-- The field updates of `NoteBox._applyColor` before its save: clamp the
components, store them as the `customColor` string, and derive the text
color (`#000000` iff the component sum exceeds 250, else `#ffffff`). -/
def applyColorFields (n : Note) (r g b : JsVal) : Note :=
  let r := clampColorVal r
  let g := clampColorVal g
  let b := clampColorVal b
  { n with
    customColor := jsValToString r ++ "," ++ jsValToString g ++ "," ++ jsValToString b,
    fontColor := if jsSumGT250 r g b then "#000000" else "#ffffff" }

/-- `NoteBox._applyColor`: update the color fields, apply styles (UI only),
then `_saveState` — every color application also writes the state record. -/
def applyColor (env : Env) (others : List Note) (n : Note) (r g b : JsVal)
    (k : Nat) : Note × StateRec × Nat :=
  saveState env others (applyColorFields n r g b) k

/-- The value of one decimal digit, if the character is one. -/
def charDigit? (c : Char) : Option Nat :=
  if c.isDigit then some (c.toNat - 48) else none

/-- Accumulate a decimal numeral; `none` when a non-digit appears (or, with
accumulator `none`, when there are no digits at all). -/
def digitsVal : List Char → Option Nat → Option Nat
  | [], acc => acc
  | c :: cs, acc =>
      match charDigit? c, acc with
      | some d, some a => digitsVal cs (some (10 * a + d))
      | some d, none => digitsVal cs (some d)
      | none, _ => none

/-- JavaScript `Number(s)` on the integer model, at the character level (the
standard-library string parser does not reduce in proofs): surrounding
whitespace is trimmed, the empty string is 0, an optionally negated decimal
numeral is its value, anything else is `NaN`.  Non-integer numerals (which
the color strings the source produces never contain) are outside the
integer model and also map to `NaN`. -/
def jsNumberOfString (s : String) : JsVal :=
  let t := ((s.data.dropWhile Char.isWhitespace).reverse.dropWhile
    Char.isWhitespace).reverse
  match t with
  | [] => .num 0
  | '-' :: rest =>
      match digitsVal rest none with
      | some v => .num (-(v : Int))
      | none => .nan
  | _ =>
      match digitsVal t none with
      | some v => .num (v : Int)
      | none => .nan

/-- Component `i` of `customColor.split(',').map(Number)` under the
destructuring `const [r, g, b] = ...`: missing components are `undefined`. -/
def nthColorPart (parts : List String) (i : Nat) : JsVal :=
  match parts.get? i with
  | some s => jsNumberOfString s
  | none => .undefined

/-- The parse performed by `NoteBox._initStyle`: `split(',')` (modelled at
the character level) then `Number` on the first three components. -/
def parseColor3 (s : String) : JsVal × JsVal × JsVal :=
  let parts := (s.data.splitOn ',').map (fun l => String.mk l)
  (nthColorPart parts 0, nthColorPart parts 1, nthColorPart parts 2)

/-- The canonical serialization of an integer RGB triple, as produced by
`_applyColor`. -/
def colorString3 (r g b : Int) : String :=
  toString r ++ "," ++ toString g ++ "," ++ toString b

/-- `NoteBox._initStyle`: parse `customColor` and run `_applyColor` on the
components (which ends in a `_saveState`). -/
def initStyle (env : Env) (others : List Note) (n : Note) (k : Nat) :
    Note × StateRec × Nat :=
  let (r, g, b) := parseColor3 n.customColor
  applyColor env others n r g b k

/-- `NoteBox._createDefaultState`: synthesize a default record with a fresh
random position and the note's current color and font size, and write it to
`<id>_state` (the write is surfaced as the returned event list). -/
def createDefaultState (env : Env) (others : List Note) (n : Note) (k : Nat) :
    StateRec × List FsEvent × Nat :=
  let (p, k') := computeRandomPosition env others k
  let sr : StateRec :=
    { x := some p.1, y := some p.2, color := n.customColor, width := some 250,
      height := some 180, fontSize := some n.fontSize, entryVisible := true,
      isBold := false }
  (sr, [(n.id, .writeState sr)], k')

/-- The common tail of the malformed and parsed-record branches of
`_loadState`: `_setNotePosition`, then `_initStyle` (whose `_applyColor`
ends in a `_saveState` writing the state record). -/
def snpInitWrite (env : Env) (others : List Note) (n : Note) (k : Nat) :
    Note × List FsEvent × Nat :=
  let (n, k) := setNotePosition env others n k
  let (n, sr2, k) := initStyle env others n k
  (n, [(n.id, .writeState sr2)], k)

/-- `NoteBox._loadState`.  Three branches of the source:
* no `<id>_state` file: `_createDefaultState` (which writes a record the
  note's in-memory fields do not adopt) followed by `_initStyle` (whose
  `_applyColor` ends in `_saveState`, overwriting that record);
* `JSON.parse` throws: the catch block re-randomizes the position, resets
  size 250×180, content visible, not bold (font size and color keep their
  current values), clamps via `_setNotePosition`, then `_initStyle`;
* parsed record: adopt color (if truthy), size (`Number(..) || default`
  floored to the minimums), font size (`Number(..) || 12`), position
  (re-randomized when `NaN`), flags; clamp via `_setNotePosition`; then
  `_initStyle`. -/
def loadState (env : Env) (others : List Note) (n : Note) (store : Store)
    (k : Nat) : Note × List FsEvent × Nat :=
  match store.state n.id with
  | none =>
      let (_, es1, k) := createDefaultState env others n k
      let (n, sr2, k) := initStyle env others n k
      (n, es1 ++ [(n.id, .writeState sr2)], k)
  | some .malformed =>
      let (p, k) := computeRandomPosition env others k
      let n := { n with x := some p.1, y := some p.2, width := 250, height := 180,
                        entryVisible := true, isBold := false }
      snpInitWrite env others n k
  | some (.wellFormed sr) =>
      let n := if sr.color ≠ "" then { n with customColor := sr.color } else n
      let n := { n with width := max (jsOr sr.width 250) MIN_WIDTH,
                        height := max (jsOr sr.height 180) MIN_HEIGHT,
                        fontSize := jsOr sr.fontSize 12,
                        x := sr.x, y := sr.y,
                        entryVisible := sr.entryVisible,
                        isBold := sr.isBold }
      let (n, k) :=
        if n.x = none ∨ n.y = none then
          let (p, k') := computeRandomPosition env others k
          ({ n with x := some p.1, y := some p.2 }, k')
        else (n, k)
      snpInitWrite env others n k

/-- `NoteBox._loadText`: create an empty `<id>_text` file when missing, then
read it into the entry. -/
def loadText (n : Note) (store : Store) : Note × List FsEvent :=
  match store.text n.id with
  | none => ({ n with text := "" }, [(n.id, .writeText "")])
  | some s => ({ n with text := s }, [])

/-- `NoteBox.onlySave` (with metadata): `_saveState` then `_saveText`. -/
def onlySave (env : Env) (others : List Note) (n : Note) (k : Nat) :
    Note × List FsEvent × Nat :=
  let (n', sr, k') := saveState env others n k
  (n', [(n'.id, .writeState sr), (n'.id, .writeText n'.text)], k')

/-- `NoteBox.loadIntoCorrectLayer`: normalize size, re-randomize a `NaN`
position, `_setNotePosition`, add to the background layer (UI), and
`_setNotePosition` again. -/
def loadIntoCorrectLayer (env : Env) (others : List Note) (n : Note) (k : Nat) :
    Note × Nat :=
  let n := { n with width := max (jsOrI n.width 250) MIN_WIDTH,
                    height := max (jsOrI n.height 180) MIN_HEIGHT }
  let (n, k) :=
    if n.x = none ∨ n.y = none then
      let (p, k') := computeRandomPosition env others k
      ({ n with x := some p.1, y := some p.2 }, k')
    else (n, k)
  let (n, k) := setNotePosition env others n k
  setNotePosition env others n k

/-- The `NoteBox` constructor: initialize fields (font size `fontSize || 12`,
color `colorString || '245,176,65'`, size 250×180, a random position), then
`_loadState`, `_loadText`, `loadIntoCorrectLayer`.  Menu and widget
construction are UI only.  Returns the note, the file mutations performed,
and the advanced rng cursor. -/
def NoteBox.new (env : Env) (others : List Note) (store : Store) (id : Nat)
    (colorString : String) (fontSize : Int) (k : Nat) :
    Note × List FsEvent × Nat :=
  let n : Note :=
    { id := id, x := none, y := none, width := 250, height := 180,
      fontSize := jsOrI fontSize 12,
      customColor := if colorString = "" then "245,176,65" else colorString,
      fontColor := "", entryVisible := true, isBold := false, text := "" }
  let (p, k) := computeRandomPosition env others k
  let n := { n with x := some p.1, y := some p.2 }
  let (n, es1, k) := loadState env others n store k
  let store := store.apply es1
  let (n, es2) := loadText n store
  let (n, k) := loadIntoCorrectLayer env others n k
  (n, es1 ++ es2, k)

/-- `NoteBox.changeFontSize`: apply the delta only when the result exceeds 1,
then `onlySave` unconditionally (both records are always rewritten). -/
def changeFontSize (env : Env) (others : List Note) (n : Note) (delta : Int)
    (k : Nat) : Note × List FsEvent × Nat :=
  let n := if n.fontSize + delta > 1 then { n with fontSize := n.fontSize + delta } else n
  onlySave env others n k

/-- A note constructor as seen by `NotesManager.createNote`: it may throw
(modelled by `Except`).  Arguments: assigned ID, color string, font size,
store and rng cursor. -/
abbrev Ctor := Nat → String → Int → Store → Nat → Except Unit (Note × List FsEvent × Nat)

/-- The real `NoteBox` constructor as a `Ctor` (total in this model). -/
def realCtor (env : Env) (others : List Note) : Ctor :=
  fun id c f store k => .ok (NoteBox.new env others store id c f k)

/-- Result of `NotesManager.createNote`: the updated collection and store,
the value returned or exception re-raised, and whether `Main.notify` was
shown. -/
structure CreateOut where
  notes : List Note
  store : Store
  k : Nat
  result : Except Unit Note
  notified : Bool

/-- `NotesManager.createNote`: assign `nextId = this._allNotes.length`,
construct, push on success; on a constructor throw, notify and re-raise
without touching the collection. -/
def NotesManager.createNote (store : Store) (notes : List Note)
    (ctor : Ctor) (colorString : String) (fontSize : Int) (k : Nat) : CreateOut :=
  let nextId := notes.length
  match ctor nextId colorString fontSize store k with
  | .ok (note, es, k') =>
      { notes := notes ++ [note], store := store.apply es, k := k',
        result := .ok note, notified := false }
  | .error e =>
      { notes := notes, store := store, k := k, result := .error e,
        notified := true }

/-- `NoteBox._deleteNoteObject` (the user-facing delete path, reached from
the delete dialog): splice the note out of `this._manager._allNotes`, then
delete its own text and state files.  It performs no renumbering and never
calls `NotesManager.postDelete`. -/
def NoteBox.deleteNoteObject (notes : List Note) (idx : Nat) :
    List Note × List FsEvent :=
  match notes.get? idx with
  | none => (notes, [])
  | some note => (notes.eraseIdx idx, [(note.id, .removeText), (note.id, .removeState)])

/-- `NotesManager.postDelete` (defined in the source but never invoked):
delete the files of `deletedNoteId`, and unless it was the last index, pop
the last note, reassign its ID to the vacated slot, place it there, persist
it under the new ID (`onlySave`), and delete the records at the vacated last
ID.  `Array.pop` on the nonempty list is `getLastD`/`dropLast`. -/
def NotesManager.postDelete (env : Env) (notes : List Note)
    (deletedNoteId : Nat) (k : Nat) : List Note × List FsEvent × Nat :=
  let delEvents : List FsEvent :=
    [(deletedNoteId, .removeText), (deletedNoteId, .removeState)]
  if deletedNoteId ≥ notes.length then (notes, delEvents, k)
  else
    let lastNote := notes.getLastD default
    let notes := notes.dropLast
    let lastNoteId := notes.length
    if deletedNoteId < notes.length then
      let moved := { lastNote with id := deletedNoteId }
      let notes := notes.set deletedNoteId moved
      let (moved', es1, k') := onlySave env notes moved k
      (notes.set deletedNoteId moved',
       delEvents ++ es1 ++ [(lastNoteId, .removeText), (lastNoteId, .removeState)], k')
    else (notes, delEvents, k)

/-- A system configuration: the manager's ordered live-note list, the notes
data directory, and the rng cursor. -/
structure SysState where
  notes : List Note
  store : Store
  k : Nat

/-- A completed user-facing operation on the collection: creating a note
(`NotesManager.createNote` with the real constructor) or deleting one
through the delete dialog (`NoteBox._deleteNoteObject` on the note at the
given list index). -/
inductive Op
  | create (colorString : String) (fontSize : Int)
  | deleteViaDialog (idx : Nat)

/-- Execute one operation. -/
def stepOp (env : Env) (s : SysState) : Op → SysState
  | .create c f =>
      let out := NotesManager.createNote s.store s.notes (realCtor env s.notes) c f s.k
      { notes := out.notes, store := out.store, k := out.k }
  | .deleteViaDialog idx =>
      let (notes', es) := NoteBox.deleteNoteObject s.notes idx
      { notes := notes', store := s.store.apply es, k := s.k }

/-- Execute a sequence of operations. -/
def runOps (env : Env) (init : SysState) (ops : List Op) : SysState :=
  ops.foldl (stepOp env) init

/-- An initial system: empty collection over a given directory. -/
def initSys (store : Store) : SysState := { notes := [], store := store, k := 0 }

/-- The scan loop of `NotesManager._loadAllNotes`: starting at index `i`,
while the `<i>_state` file exists, `createNote('', 16)` and increment.  The
source loop is unbounded; `fuel` bounds the model and the theorems assume it
exceeds the contiguous prefix.  Also returns the `notesFound` flag. -/
def loadLoop (env : Env) : Nat → Nat → SysState → Bool → SysState × Bool
  | 0, _, s, found => (s, found)
  | fuel + 1, i, s, found =>
      match s.store.state i with
      | some _ =>
          let out := NotesManager.createNote s.store s.notes (realCtor env s.notes) "" 16 s.k
          loadLoop env fuel (i + 1) { notes := out.notes, store := out.store, k := out.k } true
      | none => (s, found)

/-- `NotesManager._loadAllNotes`: scan for existing IDs from 0 until the
first missing `<id>_state` file; if none was found, create one default
note. -/
def NotesManager.loadAllNotes (env : Env) (fuel : Nat) (s : SysState) : SysState :=
  let (s, found) := loadLoop env fuel 0 s false
  if found then s
  else
    let out := NotesManager.createNote s.store s.notes (realCtor env s.notes) "" 16 s.k
    { notes := out.notes, store := out.store, k := out.k }

/-- An RGB argument triple component: a number or `NaN` (`none`). -/
def toJsVal : Option Int → JsVal
  | some n => .num n
  | none => .nan

/-- A note constructor that always throws, for exercising the failure path
of `NotesManager.createNote`. -/
def failingCtor : Ctor := fun _ _ _ _ _ => .error ()

/-- A 1920×1080 primary monitor, used by the concrete scenarios. -/
def mon1920 : Monitor := { width := 1920, height := 1080 }

/-- Sample stream spreading candidate positions 300 apart horizontally, so
consecutive notes never collide in the placement heuristic. -/
def envLin : Env := { monitor := mon1920, rng := fun j => (300 * (j : Int), 10) }

/-- Constant in-bounds sample stream. -/
def envConst : Env := { monitor := mon1920, rng := fun _ => (7, 20) }

/-- Sample stream with distinct consecutive samples, 100 apart. -/
def envStep : Env := { monitor := mon1920, rng := fun j => (100 * (j : Int), 20) }

/-- A concretely positioned note with the default remaining fields. -/
def posNote (i : Nat) (px py : Int) : Note :=
  { (default : Note) with id := i, x := some px, y := some py }

/-- A directory holding state records exactly for IDs 0, 1, 2 (unparsable
ones: existence is all the scan probes). -/
def prefixStore3 : Store :=
  { state := fun j => if j < 3 then some .malformed else none, text := fun _ => none }

/-- A directory whose only record is a malformed state file for ID 0. -/
def malformedStore0 : Store :=
  { state := fun j => if j = 0 then some .malformed else none, text := fun _ => none }

/-- Three dense, well-positioned notes, for concrete delete scenarios. -/
def c2Notes : List Note := [posNote 0 10 10, posNote 1 300 10, posNote 2 600 10]

/-- Any pointwise property of the rng samples holds of the position the
sampling loop returns. -/
theorem crpGo_elim (env : Env) (others : List Note) (P : Int × Int → Prop)
    (h : ∀ j, P (env.rng j)) :
    ∀ fuel k, P (crpGo env others fuel k).1 := by
  intro fuel
  induction fuel with
  | zero => intro k; exact h k
  | succ m ih =>
      intro k
      unfold crpGo
      dsimp only
      split
      · exact h k
      · split
        · exact h k
        · exact ih (k + 1)

/-- `_computeRandomPosition` returns one of the rng samples. -/
theorem computeRandomPosition_elim (env : Env) (others : List Note)
    (P : Int × Int → Prop) (h : ∀ j, P (env.rng j)) (k : Nat) :
    P (computeRandomPosition env others k).1 :=
  crpGo_elim env others P h 15 k

/-- Characterization of `_setNotePosition`: size normalized, position a
clamp of either the current coordinates or a fresh sample. -/
theorem setNotePosition_eq (env : Env) (others : List Note) (n : Note) (k : Nat) :
    setNotePosition env others n k =
      (let w := max (jsOrI n.width 250) MIN_WIDTH
       let h := max (jsOrI n.height 180) MIN_HEIGHT
       let pk : (Int × Int) × Nat :=
         match n.x, n.y with
         | some px, some py => ((px, py), k)
         | _, _ => computeRandomPosition env others k
       ({ n with width := w, height := h,
                 x := some (max 0 (min pk.1.1 (env.monitor.width - w))),
                 y := some (max 0 (min pk.1.2 (env.monitor.height - h))) }, pk.2)) := by
  unfold setNotePosition
  rcases hx : n.x with _ | px <;> rcases hy : n.y with _ | py <;> simp [hx, hy]

/-- `_saveState` on a note with a non-`NaN` position neither repairs nor
clamps anything: it returns the note unchanged together with its serialized
record, consuming no rng samples. -/
theorem saveState_of_some (env : Env) (others : List Note) (n : Note) (k : Nat)
    (hx : n.x ≠ none) (hy : n.y ≠ none) :
    saveState env others n k = (n, n.toStateRec, k) := by
  unfold saveState
  simp [hx, hy]

/-- `_saveState` only touches the position fields (and, when repairing a
`NaN` position, the size normalization of `_setNotePosition`). -/
theorem saveState_proj (env : Env) (others : List Note) (n : Note) (k : Nat) :
    (saveState env others n k).1.id = n.id ∧
    (saveState env others n k).1.fontSize = n.fontSize ∧
    (saveState env others n k).1.customColor = n.customColor ∧
    (saveState env others n k).1.fontColor = n.fontColor ∧
    (saveState env others n k).1.entryVisible = n.entryVisible ∧
    (saveState env others n k).1.isBold = n.isBold ∧
    (saveState env others n k).1.text = n.text := by
  unfold saveState
  split
  next n1 k1 heq =>
    by_cases hc : n.x = none ∨ n.y = none
    · rw [if_pos hc] at heq
      rcases hp : computeRandomPosition env others k with ⟨p, k2⟩
      rw [hp] at heq
      dsimp only at heq
      rw [setNotePosition_eq] at heq
      dsimp only at heq
      cases heq
      simp
    · rw [if_neg hc] at heq
      cases heq
      simp

/-- The color-field update leaves everything but `customColor` and
`fontColor` unchanged. -/
theorem applyColorFields_proj (n : Note) (r g b : JsVal) :
    (applyColorFields n r g b).id = n.id ∧
    (applyColorFields n r g b).x = n.x ∧
    (applyColorFields n r g b).y = n.y ∧
    (applyColorFields n r g b).width = n.width ∧
    (applyColorFields n r g b).height = n.height ∧
    (applyColorFields n r g b).fontSize = n.fontSize ∧
    (applyColorFields n r g b).entryVisible = n.entryVisible ∧
    (applyColorFields n r g b).isBold = n.isBold ∧
    (applyColorFields n r g b).text = n.text := by
  simp [applyColorFields]

/-- `onlySave` returns the note `_saveState` produced. -/
theorem onlySave_note (env : Env) (others : List Note) (n : Note) (k : Nat) :
    (onlySave env others n k).1 = (saveState env others n k).1 := by
  unfold onlySave
  rcases hs : saveState env others n k with ⟨a, b, c⟩
  rfl

/-- `onlySave` on a non-`NaN`-positioned note: identity on the note, write
both records verbatim. -/
theorem onlySave_of_some (env : Env) (others : List Note) (n : Note) (k : Nat)
    (hx : n.x ≠ none) (hy : n.y ≠ none) :
    onlySave env others n k =
      (n, [(n.id, .writeState n.toStateRec), (n.id, .writeText n.text)], k) := by
  unfold onlySave
  rw [saveState_of_some env others n k hx hy]

/-- `changeFontSize` hands the (conditionally) updated note to `onlySave`. -/
theorem changeFontSize_unfold (env : Env) (others : List Note) (n : Note)
    (delta : Int) (k : Nat) :
    changeFontSize env others n delta k =
      onlySave env others
        (if n.fontSize + delta > 1 then { n with fontSize := n.fontSize + delta } else n) k := by
  rfl

/-- Claim C8: a font-size change is applied exactly when
`fontSize + delta > 1`; in particular a −2 delta at size 2 is rejected
(size stays 2) and at size 4 succeeds (size becomes 2). -/
theorem changeFontSize_threshold (env : Env) (others : List Note) (n : Note)
    (delta : Int) (k : Nat) :
    (changeFontSize env others n delta k).1.fontSize =
      (if n.fontSize + delta > 1 then n.fontSize + delta else n.fontSize) ∧
    (changeFontSize env others { n with fontSize := 2 } (-2) k).1.fontSize = 2 ∧
    (changeFontSize env others { n with fontSize := 4 } (-2) k).1.fontSize = 2 := by
  have hgen : ∀ (m : Note) (d : Int),
      (changeFontSize env others m d k).1.fontSize =
        if m.fontSize + d > 1 then m.fontSize + d else m.fontSize := by
    intro m d
    rw [changeFontSize_unfold, onlySave_note]
    have hp := (saveState_proj env others
      (if m.fontSize + d > 1 then { m with fontSize := m.fontSize + d } else m) k).2.1
    rw [hp]
    split <;> simp
  refine ⟨hgen n delta, ?_, ?_⟩
  · rw [hgen]; norm_num
  · rw [hgen]; norm_num

/-- Each color component flows through default-`NaN`-to-255 and the
`Math.min(Math.max(0, c), 255)` clamp. -/
theorem clampColorVal_toJsVal (v : Option Int) :
    clampColorVal (toJsVal v) = .num (min (max 0 (v.getD 255)) 255) := by
  cases v <;> simp [toJsVal, clampColorVal, jsValDefaultNaN255, jsMax, jsMin]

/-- Claim C9: `_applyColor` clamps every component into [0, 255] (with
`NaN` components defaulted to 255), stores the clamped triple as the color,
and derives black text exactly when the clamped component sum exceeds 250;
in particular (300, 300, 300) becomes (255, 255, 255) with black text. -/
theorem applyColor_clamps (env : Env) (others : List Note) (n : Note) (k : Nat)
    (r g b : Option Int) :
    (applyColor env others n (toJsVal r) (toJsVal g) (toJsVal b) k).1.customColor
      = colorString3 (min (max 0 (r.getD 255)) 255) (min (max 0 (g.getD 255)) 255)
          (min (max 0 (b.getD 255)) 255) ∧
    (applyColor env others n (toJsVal r) (toJsVal g) (toJsVal b) k).1.fontColor
      = (if min (max 0 (r.getD 255)) 255 + min (max 0 (g.getD 255)) 255
            + min (max 0 (b.getD 255)) 255 > 250 then "#000000" else "#ffffff") ∧
    0 ≤ min (max 0 (r.getD 255)) 255 ∧ min (max 0 (r.getD 255)) 255 ≤ 255 ∧
    0 ≤ min (max 0 (g.getD 255)) 255 ∧ min (max 0 (g.getD 255)) 255 ≤ 255 ∧
    0 ≤ min (max 0 (b.getD 255)) 255 ∧ min (max 0 (b.getD 255)) 255 ≤ 255 ∧
    (applyColor env others n (.num 300) (.num 300) (.num 300) k).1.customColor
      = "255,255,255" ∧
    (applyColor env others n (.num 300) (.num 300) (.num 300) k).1.fontColor
      = "#000000" := by
  have hcc : ∀ r' g' b' : JsVal,
      (applyColor env others n r' g' b' k).1.customColor
        = (applyColorFields n r' g' b').customColor ∧
      (applyColor env others n r' g' b' k).1.fontColor
        = (applyColorFields n r' g' b').fontColor := by
    intro r' g' b'
    unfold applyColor
    have h := saveState_proj env others (applyColorFields n r' g' b') k
    exact ⟨h.2.2.1, h.2.2.2.1⟩
  refine ⟨?_, ?_, ?_, ?_, ?_, ?_, ?_, ?_, ?_, ?_⟩
  · rw [(hcc _ _ _).1]
    simp [applyColorFields, clampColorVal_toJsVal, jsValToString, colorString3]
  · rw [(hcc _ _ _).2]
    simp [applyColorFields, clampColorVal_toJsVal, jsSumGT250]
  · omega
  · omega
  · omega
  · omega
  · omega
  · omega
  · rw [(hcc _ _ _).1]
    simp [applyColorFields, clampColorVal, jsValDefaultNaN255, jsMax, jsMin,
      jsValToString]
    decide
  · rw [(hcc _ _ _).2]
    simp [applyColorFields, clampColorVal, jsValDefaultNaN255, jsMax, jsMin,
      jsSumGT250]

/-- `_setNotePosition` never changes a note's ID. -/
theorem setNotePosition_id (env : Env) (others : List Note) (n : Note) (k : Nat) :
    (setNotePosition env others n k).1.id = n.id := by
  rw [setNotePosition_eq]

/-- `_saveState` never changes a note's ID. -/
theorem saveState_id (env : Env) (others : List Note) (n : Note) (k : Nat) :
    (saveState env others n k).1.id = n.id :=
  (saveState_proj env others n k).1

/-- `_applyColor` never changes a note's ID. -/
theorem applyColor_id (env : Env) (others : List Note) (n : Note) (r g b : JsVal)
    (k : Nat) : (applyColor env others n r g b k).1.id = n.id := by
  unfold applyColor
  rw [saveState_id, (applyColorFields_proj n r g b).1]

/-- `_initStyle` is `_applyColor` on the parsed components of the current
color string. -/
theorem initStyle_unfold (env : Env) (others : List Note) (n : Note) (k : Nat) :
    initStyle env others n k =
      applyColor env others n (parseColor3 n.customColor).1
        (parseColor3 n.customColor).2.1 (parseColor3 n.customColor).2.2 k := by
  rfl

/-- `_initStyle` never changes a note's ID. -/
theorem initStyle_id (env : Env) (others : List Note) (n : Note) (k : Nat) :
    (initStyle env others n k).1.id = n.id := by
  rw [initStyle_unfold]; exact applyColor_id env others n _ _ _ k

/-- `_initStyle` on a note with a non-`NaN` position: only the color fields
change, and the record its save writes is the serialization of the result. -/
theorem initStyle_of_some (env : Env) (others : List Note) (n : Note) (k : Nat)
    (hx : n.x ≠ none) (hy : n.y ≠ none) :
    initStyle env others n k =
      (let n2 := applyColorFields n (parseColor3 n.customColor).1
           (parseColor3 n.customColor).2.1 (parseColor3 n.customColor).2.2
       (n2, n2.toStateRec, k)) := by
  have h2 := applyColorFields_proj n (parseColor3 n.customColor).1
    (parseColor3 n.customColor).2.1 (parseColor3 n.customColor).2.2
  rw [initStyle_unfold]
  unfold applyColor
  exact saveState_of_some env others _ k (by rw [h2.2.1]; exact hx)
    (by rw [h2.2.2.1]; exact hy)

/-- The only file mutation of `_createDefaultState` is the write of the
default record at the note's own ID. -/
theorem createDefaultState_events (env : Env) (others : List Note) (n : Note)
    (k : Nat) :
    (createDefaultState env others n k).2.1
      = [(n.id, .writeState (createDefaultState env others n k).1)] := by
  unfold createDefaultState
  rcases computeRandomPosition env others k with ⟨p, k'⟩
  rfl

/-- The `_setNotePosition`/`_initStyle` tail preserves the ID and writes
only at it. -/
theorem snpInitWrite_spec (env : Env) (others : List Note) (n : Note) (k : Nat) :
    (snpInitWrite env others n k).1.id = n.id ∧
    ∀ e ∈ (snpInitWrite env others n k).2.1, e.1 = n.id := by
  rcases hsn : setNotePosition env others n k with ⟨n1, k1⟩
  rcases hi : initStyle env others n1 k1 with ⟨n2, sr2, k2⟩
  have hid1 : n1.id = n.id := by
    have h := setNotePosition_id env others n k
    rw [hsn] at h
    exact h
  have hid2 : n2.id = n.id := by
    have h := initStyle_id env others n1 k1
    rw [hi] at h
    rw [h, hid1]
  have hval : snpInitWrite env others n k = (n2, [(n2.id, .writeState sr2)], k2) := by
    unfold snpInitWrite
    rw [hsn]
    dsimp only
    rw [hi]
  rw [hval]
  refine ⟨hid2, ?_⟩
  intro e he
  simp only [List.mem_singleton] at he
  subst he
  exact hid2

/-- `_loadState` preserves the note's ID, and every file mutation it
performs targets that ID. -/
theorem loadState_spec (env : Env) (others : List Note) (n : Note)
    (store : Store) (k : Nat) :
    (loadState env others n store k).1.id = n.id ∧
    ∀ e ∈ (loadState env others n store k).2.1, e.1 = n.id := by
  unfold loadState
  split
  · rcases hc : createDefaultState env others n k with ⟨sr1, es1, k1⟩
    have hev := createDefaultState_events env others n k
    rw [hc] at hev
    dsimp only at hev
    dsimp only
    rcases hi : initStyle env others n k1 with ⟨n2, sr2, k2⟩
    have hid : n2.id = n.id := by
      have h := initStyle_id env others n k1
      rw [hi] at h
      exact h
    refine ⟨hid, ?_⟩
    intro e he
    rw [hev] at he
    rcases List.mem_append.1 he with h | h
    · simp only [List.mem_singleton] at h
      subst h
      rfl
    · simp only [List.mem_singleton] at h
      subst h
      exact hid
  · rcases hp : computeRandomPosition env others k with ⟨p, k1⟩
    dsimp only
    exact snpInitWrite_spec env others _ k1
  next sr _heq =>
    dsimp only
    by_cases hcol : sr.color ≠ ""
    · simp only [if_pos hcol]
      by_cases hxy : (sr.x = none ∨ sr.y = none)
      · simp only [if_pos hxy]
        rcases hp : computeRandomPosition env others k with ⟨p, k1⟩
        dsimp only
        exact snpInitWrite_spec env others _ k1
      · simp only [if_neg hxy]
        exact snpInitWrite_spec env others _ k
    · simp only [if_neg hcol]
      by_cases hxy : (sr.x = none ∨ sr.y = none)
      · simp only [if_pos hxy]
        rcases hp : computeRandomPosition env others k with ⟨p, k1⟩
        dsimp only
        exact snpInitWrite_spec env others _ k1
      · simp only [if_neg hxy]
        exact snpInitWrite_spec env others _ k

/-- `_loadText` sets `text` to the stored content (empty when the file is
missing, in which case an empty file is created at the note's ID). -/
theorem loadText_spec (n : Note) (store : Store) :
    (loadText n store).1 = { n with text := (store.text n.id).getD "" } ∧
    ∀ e ∈ (loadText n store).2, e.1 = n.id := by
  unfold loadText
  rcases store.text n.id with _ | s <;> simp

/-- `loadIntoCorrectLayer` never changes a note's ID. -/
theorem loadIntoCorrectLayer_id (env : Env) (others : List Note) (n : Note)
    (k : Nat) : (loadIntoCorrectLayer env others n k).1.id = n.id := by
  unfold loadIntoCorrectLayer
  dsimp only
  split
  · rcases hp : computeRandomPosition env others k with ⟨p, k1⟩
    dsimp only
    rcases hsn : setNotePosition env others _ k1 with ⟨m, k2⟩
    have h1 : m.id = n.id := by
      have h := congrArg (fun t : Note × Nat => t.1.id) hsn
      dsimp only at h
      rw [setNotePosition_id] at h
      exact h.symm
    rw [setNotePosition_id]
    exact h1
  · rcases hsn : setNotePosition env others _ k with ⟨m, k2⟩
    have h1 : m.id = n.id := by
      have h := congrArg (fun t : Note × Nat => t.1.id) hsn
      dsimp only at h
      rw [setNotePosition_id] at h
      exact h.symm
    rw [setNotePosition_id]
    exact h1

/-- The `NoteBox` constructor assigns the requested ID, and every file
mutation it performs targets that ID. -/
theorem NoteBox.new_spec (env : Env) (others : List Note) (store : Store)
    (id : Nat) (c : String) (f : Int) (k : Nat) :
    (NoteBox.new env others store id c f k).1.id = id ∧
    ∀ e ∈ (NoteBox.new env others store id c f k).2.1, e.1 = id := by
  unfold NoteBox.new
  dsimp only
  rcases hp : computeRandomPosition env others k with ⟨p, k1⟩
  dsimp only
  rcases hl : loadState env others
    { id := id, x := some p.1, y := some p.2, width := 250, height := 180,
      fontSize := jsOrI f 12,
      customColor := if c = "" then "245,176,65" else c,
      fontColor := "", entryVisible := true, isBold := false, text := "" }
    store k1 with ⟨n2, es1, k2⟩
  have hls := loadState_spec env others
    { id := id, x := some p.1, y := some p.2, width := 250, height := 180,
      fontSize := jsOrI f 12,
      customColor := if c = "" then "245,176,65" else c,
      fontColor := "", entryVisible := true, isBold := false, text := "" }
    store k1
  rw [hl] at hls
  dsimp only at hls
  rcases ht : loadText n2 (store.apply es1) with ⟨n3, es2⟩
  have hlt := loadText_spec n2 (store.apply es1)
  rw [ht] at hlt
  dsimp only at hlt
  rcases hlayer : loadIntoCorrectLayer env others n3 k2 with ⟨n4, k3⟩
  have hli := loadIntoCorrectLayer_id env others n3 k2
  rw [hlayer] at hli
  dsimp only
  constructor
  · rw [hli, hlt.1]
    exact hls.1
  · intro e he
    rcases List.mem_append.1 he with h | h
    · exact hls.2 e h
    · have := hlt.2 e h
      rw [this, hls.1]

/-- Claim C7: if the note constructor throws, `createNote` notifies the
user, re-raises, and leaves the collection unchanged; if it succeeds,
exactly one note whose ID is the prior collection length is appended. -/
theorem createNote_spec (env : Env) (store : Store) (notes : List Note)
    (ctor : Ctor) (c : String) (f : Int) (k : Nat)
    (hfail : ctor notes.length c f store k = .error ()) :
    (NotesManager.createNote store notes ctor c f k).notes = notes ∧
    (NotesManager.createNote store notes ctor c f k).notified = true ∧
    (NotesManager.createNote store notes ctor c f k).result = .error () ∧
    (NotesManager.createNote store notes (realCtor env notes) c f k).notes
      = notes ++ [(NoteBox.new env notes store notes.length c f k).1] ∧
    (NoteBox.new env notes store notes.length c f k).1.id = notes.length ∧
    (NotesManager.createNote store notes (realCtor env notes) c f k).notified
      = false := by
  refine ⟨?_, ?_, ?_, ?_, (NoteBox.new_spec env notes store notes.length c f k).1, ?_⟩
  · unfold NotesManager.createNote
    dsimp only
    rw [hfail]
  · unfold NotesManager.createNote
    dsimp only
    rw [hfail]
  · unfold NotesManager.createNote
    dsimp only
    rw [hfail]
  · unfold NotesManager.createNote realCtor
    dsimp only
  · unfold NotesManager.createNote realCtor
    dsimp only

/-- Witness for C7 at a concrete input: an always-throwing constructor on an
empty collection, and the real constructor on the same state. -/
theorem createNote_spec_witness :
    (NotesManager.createNote emptyStore [] failingCtor "" 16 0).notes = [] ∧
    (NotesManager.createNote emptyStore [] failingCtor "" 16 0).notified = true ∧
    (NotesManager.createNote emptyStore [] failingCtor "" 16 0).result = .error () ∧
    (NotesManager.createNote emptyStore [] (realCtor envConst []) "" 16 0).notes
      = [] ++ [(NoteBox.new envConst [] emptyStore 0 "" 16 0).1] ∧
    (NoteBox.new envConst [] emptyStore 0 "" 16 0).1.id = 0 ∧
    (NotesManager.createNote emptyStore [] (realCtor envConst []) "" 16 0).notified
      = false :=
  createNote_spec envConst emptyStore [] failingCtor "" 16 0 rfl

/-- Claim C10 (amended): `changeFontSize` on a note whose position is not
`NaN` leaves every field but `fontSize` unchanged (also when the delta is
rejected) and still rewrites both the state and the text record of the
note's ID.  (A `NaN` position is re-randomized and clamped by the save;
see the counterexample.) -/
theorem changeFontSize_frame (env : Env) (others : List Note) (n : Note)
    (delta : Int) (k : Nat) (hx : n.x ≠ none) (hy : n.y ≠ none) :
    changeFontSize env others n delta k =
      ((if n.fontSize + delta > 1 then { n with fontSize := n.fontSize + delta } else n),
       [(n.id, .writeState
          (if n.fontSize + delta > 1 then { n with fontSize := n.fontSize + delta }
           else n).toStateRec),
        (n.id, .writeText n.text)], k) := by
  rw [changeFontSize_unfold]
  by_cases hc : n.fontSize + delta > 1
  · simp only [if_pos hc]
    exact onlySave_of_some env others _ k hx hy
  · simp only [if_neg hc]
    exact onlySave_of_some env others _ k hx hy

/-- Witness for the amended C10 at a concrete input (delta rejected: size 12
with delta −12 stays 12, both records still written). -/
theorem changeFontSize_frame_witness :
    changeFontSize envConst [] (posNote 0 30 40) (-12) 0 =
      ((if (posNote 0 30 40).fontSize + (-12) > 1
        then { posNote 0 30 40 with fontSize := (posNote 0 30 40).fontSize + (-12) }
        else posNote 0 30 40),
       [((posNote 0 30 40).id, .writeState
          (if (posNote 0 30 40).fontSize + (-12) > 1
           then { posNote 0 30 40 with fontSize := (posNote 0 30 40).fontSize + (-12) }
           else posNote 0 30 40).toStateRec),
        ((posNote 0 30 40).id, .writeText (posNote 0 30 40).text)], 0) :=
  changeFontSize_frame envConst [] (posNote 0 30 40) (-12) 0 (by decide) (by decide)

/-- Claim C10 counterexample: as stated the claim is false — a rejected
font-size change (size 2, delta −2) on a note whose position is `NaN` does
not leave the other fields unchanged: the unconditional save re-randomizes
the position (here to (7, 20)). -/
theorem changeFontSize_rejected_mutates_nan_position :
    (changeFontSize envConst [] { (default : Note) with fontSize := 2 } (-2) 0).1.fontSize
      = 2 ∧
    ({ (default : Note) with fontSize := 2 } : Note).x = none ∧
    (changeFontSize envConst [] { (default : Note) with fontSize := 2 } (-2) 0).1.x
      = some 7 := by
  refine ⟨?_, rfl, ?_⟩ <;> decide

/-- Claim C2: `postDelete` on a dense collection of `N` notes and an ID in
`[0, N)`: deleting the last ID just drops the note and removes its own two
records; deleting any other ID moves the last note into the vacated slot
with its ID reassigned, persists it (state and text) under the new ID, and
removes the two records at the vacated last ID. -/
theorem postDelete_swap_with_last (env : Env) (notes : List Note) (idd k : Nat)
    (hdense : ∀ i (h : i < notes.length), (notes.get ⟨i, h⟩).id = i)
    (hxy : ∀ m ∈ notes, m.x ≠ none ∧ m.y ≠ none)
    (hid : idd < notes.length) :
    (idd + 1 = notes.length →
      NotesManager.postDelete env notes idd k =
        (notes.dropLast, [(idd, .removeText), (idd, .removeState)], k)) ∧
    (idd + 1 < notes.length →
      NotesManager.postDelete env notes idd k =
        (notes.dropLast.set idd { notes.getLastD default with id := idd },
         [(idd, .removeText), (idd, .removeState),
          (idd, .writeState ({ notes.getLastD default with id := idd } : Note).toStateRec),
          (idd, .writeText (notes.getLastD default).text),
          (notes.length - 1, .removeText), (notes.length - 1, .removeState)], k)) := by
  have hge : ¬ (idd ≥ notes.length) := not_le.mpr hid
  have hne : notes ≠ [] := List.ne_nil_of_length_pos (by omega)
  have hmem : notes.getLastD default ∈ notes := by
    rw [List.getLastD_eq_getLast?]
    rcases hl : notes.getLast? with _ | a
    · rw [List.getLast?_eq_none_iff] at hl
      exact absurd hl hne
    · exact List.mem_of_mem_getLast? hl
  have hxyL := hxy _ hmem
  constructor
  · intro hlast
    unfold NotesManager.postDelete
    rw [if_neg hge]
    dsimp only
    rw [if_neg (by rw [List.length_dropLast]; omega)]
  · intro hmid
    unfold NotesManager.postDelete
    rw [if_neg hge]
    dsimp only
    rw [if_pos (by rw [List.length_dropLast]; omega)]
    rw [onlySave_of_some env (notes.dropLast.set idd { notes.getLastD default with id := idd })
      ({ notes.getLastD default with id := idd }) k hxyL.1 hxyL.2]
    dsimp only
    rw [List.set_set, List.length_dropLast]
    rfl

/-- Witness for C2: deleting ID 0 among three dense notes (the non-last
case applies; the last-index implication is vacuous here). -/
theorem postDelete_swap_with_last_witness :
    (0 + 1 = c2Notes.length →
      NotesManager.postDelete envConst c2Notes 0 0 =
        (c2Notes.dropLast, [(0, .removeText), (0, .removeState)], 0)) ∧
    (0 + 1 < c2Notes.length →
      NotesManager.postDelete envConst c2Notes 0 0 =
        (c2Notes.dropLast.set 0 { c2Notes.getLastD default with id := 0 },
         [(0, .removeText), (0, .removeState),
          (0, .writeState ({ c2Notes.getLastD default with id := 0 } : Note).toStateRec),
          (0, .writeText (c2Notes.getLastD default).text),
          (c2Notes.length - 1, .removeText), (c2Notes.length - 1, .removeState)], 0)) :=
  postDelete_swap_with_last envConst c2Notes 0 0 (by decide) (by decide) (by decide)

/-- Claim C1 (the code violates it): after three completed creates and a
completed user-facing delete (the delete dialog path `_deleteNoteObject`) of
the note with ID 0, the live notes carry IDs {1, 2} — not {0, 1} as the
density invariant demands.  `NotesManager.postDelete`, the renumbering
routine whose own documentation says it runs after a deletion, is never
invoked by any delete path in the source. -/
theorem deleteDialog_breaks_density :
    (runOps envLin (initSys emptyStore)
      [.create "" 16, .create "" 16, .create "" 16, .deleteViaDialog 0]).notes.map Note.id
      = [1, 2] ∧
    (runOps envLin (initSys emptyStore)
      [.create "" 16, .create "" 16, .create "" 16, .deleteViaDialog 0]).notes.length
      = 2 ∧
    ¬ ((runOps envLin (initSys emptyStore)
      [.create "" 16, .create "" 16, .create "" 16, .deleteViaDialog 0]).notes.map Note.id
      = List.range 2) := by
  refine ⟨by decide, by decide, by decide⟩

/-- Events all targeting one ID leave every other ID's records unchanged. -/
theorem Store.apply_ne (st : Store) (es : List FsEvent) (i j : Nat)
    (hall : ∀ e ∈ es, e.1 = i) (hne : j ≠ i) :
    ((st.apply es).state j = st.state j) ∧ ((st.apply es).text j = st.text j) := by
  induction es generalizing st with
  | nil => exact ⟨rfl, rfl⟩
  | cons e es ih =>
      have he : e.1 = i := hall e (List.mem_cons_self _ _)
      have hrest : ∀ e' ∈ es, e'.1 = i := fun e' h => hall e' (List.mem_cons_of_mem _ h)
      have h1 : (st.apply1 e).state j = st.state j ∧ (st.apply1 e).text j = st.text j := by
        unfold Store.apply1
        rcases e with ⟨ei, a⟩
        simp only at he
        subst he
        cases a <;> simp [hne]
      have h2 := ih (st.apply1 e) hrest
      refine ⟨?_, ?_⟩
      · rw [show st.apply (e :: es) = (st.apply1 e).apply es from rfl, h2.1, h1.1]
      · rw [show st.apply (e :: es) = (st.apply1 e).apply es from rfl, h2.2, h1.2]

/-- `createNote` with the real constructor: append the new note (whose ID is
the previous length), apply its file mutations, no notification. -/
theorem createNote_real_out (env : Env) (store : Store) (notes : List Note)
    (c : String) (f : Int) (k : Nat) :
    (NotesManager.createNote store notes (realCtor env notes) c f k).notes
      = notes ++ [(NoteBox.new env notes store notes.length c f k).1] ∧
    (NotesManager.createNote store notes (realCtor env notes) c f k).store
      = store.apply (NoteBox.new env notes store notes.length c f k).2.1 ∧
    (NotesManager.createNote store notes (realCtor env notes) c f k).notified
      = false := by
  refine ⟨?_, ?_, ?_⟩ <;> (unfold NotesManager.createNote realCtor; dsimp only)

/-- `createNote` with the real constructor only mutates the files of the new
note's ID. -/
theorem createNote_real_store_ne (env : Env) (store : Store) (notes : List Note)
    (c : String) (f : Int) (k j : Nat) (hj : j ≠ notes.length) :
    (NotesManager.createNote store notes (realCtor env notes) c f k).store.state j
      = store.state j := by
  rw [(createNote_real_out env store notes c f k).2.1]
  exact (Store.apply_ne store _ notes.length j
    (NoteBox.new_spec env notes store notes.length c f k).2 hj).1

/-- The scan loop of `_loadAllNotes` creates one note per existing state
file in the contiguous range, assigning IDs in order. -/
theorem loadLoop_spec (env : Env) (m : Nat) :
    ∀ (fuel i : Nat) (s : SysState) (found : Bool),
      (∀ j, j < m → (s.store.state (i + j)).isSome = true) →
      s.store.state (i + m) = none →
      s.notes.length = i →
      m + 1 ≤ fuel →
      (loadLoop env fuel i s found).1.notes.map Note.id
          = s.notes.map Note.id ++ List.range' i m ∧
      (loadLoop env fuel i s found).1.notes.length = i + m ∧
      (loadLoop env fuel i s found).2 = (found || decide (0 < m)) := by
  induction m with
  | zero =>
      intro fuel i s found hpre hmiss hlen hfuel
      rcases fuel with _ | fl
      · omega
      · unfold loadLoop
        rw [show i + 0 = i from rfl] at hmiss
        rw [hmiss]
        simp [hlen]
  | succ m ih =>
      intro fuel i s found hpre hmiss hlen hfuel
      rcases fuel with _ | fl
      · omega
      · unfold loadLoop
        have hi : (s.store.state i).isSome = true := by
          have := hpre 0 (by omega)
          simpa using this
        rcases hsome : s.store.state i with _ | sf
        · rw [hsome] at hi
          simp at hi
        · dsimp only
          have hout := createNote_real_out env s.store s.notes "" 16 s.k
          have hnotes : (NotesManager.createNote s.store s.notes
              (realCtor env s.notes) "" 16 s.k).notes
              = s.notes ++ [(NoteBox.new env s.notes s.store s.notes.length "" 16 s.k).1] :=
            hout.1
          have hnid : (NoteBox.new env s.notes s.store s.notes.length "" 16 s.k).1.id
              = s.notes.length :=
            (NoteBox.new_spec env s.notes s.store s.notes.length "" 16 s.k).1
          have hih := ih fl (i + 1)
            { notes := (NotesManager.createNote s.store s.notes
                (realCtor env s.notes) "" 16 s.k).notes,
              store := (NotesManager.createNote s.store s.notes
                (realCtor env s.notes) "" 16 s.k).store,
              k := (NotesManager.createNote s.store s.notes
                (realCtor env s.notes) "" 16 s.k).k } true
            (by
              intro j hj
              dsimp only
              rw [createNote_real_store_ne env s.store s.notes "" 16 s.k (i + 1 + j)
                (by omega)]
              have := hpre (1 + j) (by omega)
              rw [show i + (1 + j) = i + 1 + j by omega] at this
              exact this)
            (by
              dsimp only
              rw [createNote_real_store_ne env s.store s.notes "" 16 s.k (i + 1 + m)
                (by omega)]
              rw [show i + (m + 1) = i + 1 + m by omega] at hmiss
              exact hmiss)
            (by
              dsimp only
              rw [hnotes]
              simp [hlen])
            (by omega)
          refine ⟨?_, ?_, ?_⟩
          · rw [hih.1]
            dsimp only
            rw [hnotes]
            have hnid' : (NoteBox.new env s.notes s.store i "" 16 s.k).1.id = i := by
              rw [← hlen]
              exact hnid
            rw [List.map_append, List.range'_succ]
            simp [hnid', hlen]
          · rw [hih.2.1]
            omega
          · rw [hih.2.2]
            simp

/-- Claim C4: over a directory whose state files cover exactly the IDs
`0..k-1` (arbitrary records may exist beyond the gap), `_loadAllNotes`
creates exactly `k` notes with IDs `0..k-1`; when even ID 0 is missing it
creates exactly one default note (ID 0).  `max k 1` captures both cases. -/
theorem loadAll_contiguous_prefix (env : Env) (store0 : Store) (fuel kk : Nat)
    (hpre : ∀ j, j < kk → (store0.state j).isSome = true)
    (hmiss : store0.state kk = none)
    (hfuel : kk + 1 ≤ fuel) :
    (NotesManager.loadAllNotes env fuel (initSys store0)).notes.map Note.id
        = List.range (max kk 1) ∧
    (NotesManager.loadAllNotes env fuel (initSys store0)).notes.length = max kk 1 := by
  have hloop := loadLoop_spec env kk fuel 0 (initSys store0) false
    (by intro j hj; simpa using hpre j hj) (by simpa using hmiss) rfl hfuel
  unfold NotesManager.loadAllNotes
  rcases hl : loadLoop env fuel 0 (initSys store0) false with ⟨s1, found⟩
  rw [hl] at hloop
  dsimp only at hloop ⊢
  rcases Nat.eq_zero_or_pos kk with h0 | hpos
  · subst h0
    have hf : found = false := by simpa using hloop.2.2
    subst hf
    simp only [Bool.false_eq_true, if_false]
    have hempty : s1.notes = [] := List.length_eq_zero.mp (by simpa using hloop.2.1)
    have hout := createNote_real_out env s1.store s1.notes "" 16 s1.k
    have hnid := (NoteBox.new_spec env s1.notes s1.store s1.notes.length "" 16 s1.k).1
    constructor
    · rw [hout.1, List.map_append, hempty]
      rw [hempty] at hnid
      simp only [List.length_nil] at hnid
      simp [hnid]
      rfl
    · rw [hout.1, hempty]
      simp
  · have hf : found = true := by
      have h := hloop.2.2
      simpa [hpos] using h
    subst hf
    simp only [if_true]
    have hmax : max kk 1 = kk := by omega
    rw [hmax]
    refine ⟨?_, ?_⟩
    · have h := hloop.1
      simpa [List.range_eq_range'] using h
    · simpa using hloop.2.1

/-- Witness for C4: a directory holding state files exactly for IDs 0, 1, 2
loads exactly three notes with IDs 0, 1, 2. -/
theorem loadAll_contiguous_prefix_witness :
    (NotesManager.loadAllNotes envLin 4 (initSys prefixStore3)).notes.map Note.id
        = List.range (max 3 1) ∧
    (NotesManager.loadAllNotes envLin 4 (initSys prefixStore3)).notes.length = max 3 1 :=
  loadAll_contiguous_prefix envLin prefixStore3 4 3 (by decide) (by decide) (by decide)

/-- The size normalization is idempotent on already-normalized widths. -/
theorem widthNorm_idem (W : Int) (hW : MIN_WIDTH ≤ W) :
    max (jsOrI W 250) MIN_WIDTH = W := by
  unfold jsOrI MIN_WIDTH at *
  rw [if_neg (by omega)]
  omega

/-- The size normalization is idempotent on already-normalized heights. -/
theorem heightNorm_idem (H : Int) (hH : MIN_HEIGHT ≤ H) :
    max (jsOrI H 180) MIN_HEIGHT = H := by
  unfold jsOrI MIN_HEIGHT at *
  rw [if_neg (by omega)]
  omega

/-- The position clamp is idempotent. -/
theorem clamp_idem (a b : Int) :
    max 0 (min (max 0 (min a b)) b) = max 0 (min a b) := by
  omega

/-- An in-range component passes through the `_applyColor` clamp. -/
theorem clampColorVal_of_range (a : Int) (h0 : 0 ≤ a) (h255 : a ≤ 255) :
    clampColorVal (.num a) = .num a := by
  simp only [clampColorVal, jsValDefaultNaN255, jsMax, jsMin, JsVal.num.injEq]
  omega

/-- A serialized color triple is never the empty string. -/
theorem colorString3_ne_empty (r g b : Int) : colorString3 r g b ≠ "" := by
  intro h
  have hl := congrArg String.length h
  rw [colorString3] at hl
  simp [String.length_append] at hl
  exact absurd hl.1.1.1.2 (by decide)

/-- `Number(v) || d` on a serialized integer field. -/
theorem jsOr_some (v d : Int) : jsOr (some v) d = jsOrI v d := rfl

/-- Re-reading a `fontSize || 12` value through `Number(..) || 12` is the
identity. -/
theorem jsOr_some_jsOrI (f : Int) : jsOr (some (jsOrI f 12)) 12 = jsOrI f 12 := by
  unfold jsOr jsOrI
  by_cases hf : f = 0 <;> simp [hf]

/-- State-record writes leave the text map untouched. -/
theorem apply_writeState_text (st : Store) (i : Nat) (sr : StateRec) :
    (st.apply1 (i, .writeState sr)).text = st.text := rfl

/-- The `_setNotePosition`/`_initStyle` tail on a non-`NaN`-positioned note,
explicitly. -/
theorem snpInitWrite_of_some (env : Env) (others : List Note) (n : Note)
    (k : Nat) (px py : Int) (hx : n.x = some px) (hy : n.y = some py) :
    snpInitWrite env others n k =
      (let w := max (jsOrI n.width 250) MIN_WIDTH
       let h := max (jsOrI n.height 180) MIN_HEIGHT
       let n2 : Note := { n with width := w, height := h,
                                 x := some (max 0 (min px (env.monitor.width - w))),
                                 y := some (max 0 (min py (env.monitor.height - h))) }
       let n3 := applyColorFields n2 (parseColor3 n.customColor).1
           (parseColor3 n.customColor).2.1 (parseColor3 n.customColor).2.2
       (n3, [(n3.id, .writeState n3.toStateRec)], k)) := by
  unfold snpInitWrite
  rw [setNotePosition_eq]
  simp only [hx, hy]
  rw [initStyle_of_some env others _ k (by simp) (by simp)]

/-- `loadIntoCorrectLayer` on a non-`NaN`-positioned note: normalize the
size once and clamp the position (the second `_setNotePosition` call is
idempotent). -/
theorem loadIntoCorrectLayer_of_some (env : Env) (others : List Note)
    (n : Note) (k : Nat) (px py : Int) (hx : n.x = some px) (hy : n.y = some py) :
    loadIntoCorrectLayer env others n k =
      (let w := max (jsOrI n.width 250) MIN_WIDTH
       let h := max (jsOrI n.height 180) MIN_HEIGHT
       ({ n with width := w, height := h,
                 x := some (max 0 (min px (env.monitor.width - w))),
                 y := some (max 0 (min py (env.monitor.height - h))) }, k)) := by
  unfold loadIntoCorrectLayer
  dsimp only
  rw [if_neg (by simp [hx, hy])]
  rw [setNotePosition_eq]
  simp only [hx, hy]
  rw [setNotePosition_eq]
  dsimp only
  have hw := widthNorm_idem (max (jsOrI n.width 250) MIN_WIDTH) (le_max_right _ _)
  have hh := heightNorm_idem (max (jsOrI n.height 180) MIN_HEIGHT) (le_max_right _ _)
  simp only [hw, hh, clamp_idem]

/-- `_loadState` on a missing record and a non-`NaN`-positioned note: write
the default record (fresh sample), then overwrite it via `_initStyle` with
the serialization of the in-memory state; the note's position is not
changed to the default record's sample. -/
theorem loadState_missing (env : Env) (others : List Note) (n : Note)
    (store : Store) (k : Nat) (px py : Int)
    (hmiss : store.state n.id = none) (hx : n.x = some px) (hy : n.y = some py) :
    loadState env others n store k =
      (let pk := computeRandomPosition env others k
       let n3 := applyColorFields n (parseColor3 n.customColor).1
           (parseColor3 n.customColor).2.1 (parseColor3 n.customColor).2.2
       (n3,
        [(n.id, .writeState
           { x := some pk.1.1, y := some pk.1.2, color := n.customColor,
             width := some 250, height := some 180, fontSize := some n.fontSize,
             entryVisible := true, isBold := false }),
         (n3.id, .writeState n3.toStateRec)], pk.2)) := by
  unfold loadState
  rw [hmiss]
  unfold createDefaultState
  rcases hp : computeRandomPosition env others k with ⟨p, k1⟩
  dsimp only
  rw [initStyle_of_some env others n k1 (by simp [hx]) (by simp [hy])]
  dsimp only
  rfl

/-- `_loadState` on a malformed (unparsable) record: the catch block draws a
fresh position, resets size 250×180, visible, not bold (keeping font size
and color), clamps, and `_initStyle` writes the resulting state. -/
theorem loadState_malformed (env : Env) (others : List Note) (n : Note)
    (store : Store) (k : Nat)
    (hmal : store.state n.id = some .malformed) :
    loadState env others n store k =
      (let pk := computeRandomPosition env others k
       let n2 : Note := { n with
         x := some (max 0 (min pk.1.1 (env.monitor.width - 250))),
         y := some (max 0 (min pk.1.2 (env.monitor.height - 180))),
         width := 250, height := 180, entryVisible := true, isBold := false }
       let n3 := applyColorFields n2 (parseColor3 n.customColor).1
           (parseColor3 n.customColor).2.1 (parseColor3 n.customColor).2.2
       (n3, [(n3.id, .writeState n3.toStateRec)], pk.2)) := by
  unfold loadState
  rw [hmal]
  rcases hp : computeRandomPosition env others k with ⟨p, k1⟩
  dsimp only
  rw [snpInitWrite_of_some env others _ k1 p.1 p.2 rfl rfl]
  dsimp only
  norm_num [MIN_WIDTH, MIN_HEIGHT, jsOrI]

/-- `_loadState` on a parsed record with non-`NaN` stored position: adopt
the (truthy) color, normalized size, defaulted font size and flags, clamp
the position, and let `_initStyle` rewrite the record. -/
theorem loadState_wellFormed (env : Env) (others : List Note) (b : Note)
    (store : Store) (k : Nat) (sr : StateRec) (sx sy : Int)
    (hst : store.state b.id = some (.wellFormed sr))
    (hsx : sr.x = some sx) (hsy : sr.y = some sy)
    (hcolne : sr.color ≠ "") :
    loadState env others b store k =
      (let w := max (jsOr sr.width 250) MIN_WIDTH
       let h := max (jsOr sr.height 180) MIN_HEIGHT
       let n2 : Note := { b with
         customColor := sr.color, width := w, height := h,
         fontSize := jsOr sr.fontSize 12,
         x := some (max 0 (min sx (env.monitor.width - w))),
         y := some (max 0 (min sy (env.monitor.height - h))),
         entryVisible := sr.entryVisible, isBold := sr.isBold }
       let n3 := applyColorFields n2 (parseColor3 sr.color).1
           (parseColor3 sr.color).2.1 (parseColor3 sr.color).2.2
       (n3, [(n3.id, .writeState n3.toStateRec)], k)) := by
  unfold loadState
  rw [hst]
  dsimp only
  rw [if_pos hcolne]
  rw [if_neg (by simp [hsx, hsy])]
  rw [snpInitWrite_of_some env others _ k sx sy (by simp [hsx]) (by simp [hsy])]
  dsimp only
  rw [widthNorm_idem _ (le_max_right _ _), heightNorm_idem _ (le_max_right _ _)]

/-- Claim C3 counterexample: `_saveState` itself does not clamp the position
inside monitor bounds before writing.  On a 1920×1080 monitor it writes
x = 5000 verbatim (5000 exceeds even the monitor width, let alone the
clamped value 1670 the positioning routine would use). -/
theorem saveState_writes_unclamped_position :
    ((saveState envConst [] (posNote 0 5000 10) 0).2.1).x = some 5000 ∧
    envConst.monitor.width = 1920 ∧
    (posNote 0 5000 10).width = 250 ∧
    max 0 (min 5000 (envConst.monitor.width - (posNote 0 5000 10).width)) = 1670 ∧
    ((saveState envConst [] (posNote 0 5000 10) 0).2.1).x ≠ some 1670 := by
  refine ⟨?_, rfl, rfl, by decide, by decide⟩
  decide

/-- Claim C3 (amended): `saveState` followed by `loadState` for the same ID
returns the saved state up to the clamping applied **at load time**: size
floored to the minimums (a zero size re-defaulted), font size defaulted
when zero, position clamped inside monitor bounds by the post-load
positioning routine, color re-parsed and re-clamped (the identity for a
canonical in-range color string), flags preserved.  `saveState` itself
writes the non-`NaN` position unclamped (see the counterexample); it only
re-randomizes a `NaN` position. -/
theorem saveState_loadState_roundtrip (env : Env) (others1 others2 : List Note)
    (store : Store) (k1 k2 : Nat) (n b : Note) (nx ny r g cb : Int)
    (hx : n.x = some nx) (hy : n.y = some ny)
    (hcol : n.customColor = colorString3 r g cb)
    (hparse : parseColor3 n.customColor = (.num r, .num g, .num cb))
    (hr : 0 ≤ r ∧ r ≤ 255) (hg : 0 ≤ g ∧ g ≤ 255) (hcb : 0 ≤ cb ∧ cb ≤ 255)
    (hbid : b.id = n.id) :
    (saveState env others1 n k1).2.1 = n.toStateRec ∧
    (let n2 := (loadState env others2 b
        (store.apply [(n.id, .writeState (saveState env others1 n k1).2.1)]) k2).1
     let w := max (jsOrI n.width 250) MIN_WIDTH
     let h := max (jsOrI n.height 180) MIN_HEIGHT
     n2.width = w ∧ n2.height = h ∧
     n2.fontSize = jsOrI n.fontSize 12 ∧
     n2.x = some (max 0 (min nx (env.monitor.width - w))) ∧
     n2.y = some (max 0 (min ny (env.monitor.height - h))) ∧
     n2.customColor = n.customColor ∧
     n2.entryVisible = n.entryVisible ∧
     n2.isBold = n.isBold ∧
     n2.id = n.id) := by
  have hrec : saveState env others1 n k1 = (n, n.toStateRec, k1) :=
    saveState_of_some env others1 n k1 (by simp [hx]) (by simp [hy])
  rw [hrec]
  dsimp only
  refine ⟨rfl, ?_⟩
  have hcolne : n.customColor ≠ "" := by
    rw [hcol]
    exact colorString3_ne_empty r g cb
  have hst : (store.apply [(n.id, .writeState n.toStateRec)]).state b.id
      = some (.wellFormed n.toStateRec) := by
    unfold Store.apply Store.apply1
    simp [hbid]
  have hload := loadState_wellFormed env others2 b
    (store.apply [(n.id, .writeState n.toStateRec)]) k2 n.toStateRec nx ny hst
    (by simp [Note.toStateRec, hx]) (by simp [Note.toStateRec, hy])
    (by simp [Note.toStateRec]; exact hcolne)
  rw [hload]
  dsimp only
  have hccfix : ∀ m : Note, m.customColor = n.customColor →
      (applyColorFields m (parseColor3 n.customColor).1
        (parseColor3 n.customColor).2.1 (parseColor3 n.customColor).2.2).customColor
      = n.customColor := by
    intro m hm
    rw [hparse]
    unfold applyColorFields
    dsimp only
    rw [clampColorVal_of_range r hr.1 hr.2, clampColorVal_of_range g hg.1 hg.2,
      clampColorVal_of_range cb hcb.1 hcb.2]
    rw [hcol]
    rfl
  refine ⟨?_, ?_, ?_, ?_, ?_, ?_, ?_, ?_, ?_⟩
  · simp [applyColorFields, Note.toStateRec, jsOr_some]
  · simp [applyColorFields, Note.toStateRec, jsOr_some]
  · simp [applyColorFields, Note.toStateRec, jsOr_some]
  · simp [applyColorFields, Note.toStateRec, jsOr_some]
  · simp [applyColorFields, Note.toStateRec, jsOr_some]
  · exact hccfix _ rfl
  · simp [applyColorFields, Note.toStateRec]
  · simp [applyColorFields, Note.toStateRec]
  · exact hbid

/-- Witness for the amended C3: saving the default-colored note at
(100, 50) and re-loading it through a fresh base note round-trips with the
load-time clamp. -/
theorem saveState_loadState_roundtrip_witness :
    (saveState envConst [] (posNote 0 100 50) 0).2.1 = (posNote 0 100 50).toStateRec ∧
    (let n2 := (loadState envConst [] (posNote 0 7 8)
        (emptyStore.apply [((posNote 0 100 50).id,
          .writeState (saveState envConst [] (posNote 0 100 50) 0).2.1)]) 0).1
     let w := max (jsOrI (posNote 0 100 50).width 250) MIN_WIDTH
     let h := max (jsOrI (posNote 0 100 50).height 180) MIN_HEIGHT
     n2.width = w ∧ n2.height = h ∧
     n2.fontSize = jsOrI (posNote 0 100 50).fontSize 12 ∧
     n2.x = some (max 0 (min 100 (envConst.monitor.width - w))) ∧
     n2.y = some (max 0 (min 50 (envConst.monitor.height - h))) ∧
     n2.customColor = (posNote 0 100 50).customColor ∧
     n2.entryVisible = (posNote 0 100 50).entryVisible ∧
     n2.isBold = (posNote 0 100 50).isBold ∧
     n2.id = (posNote 0 100 50).id) :=
  saveState_loadState_roundtrip envConst [] [] emptyStore 0 0
    (posNote 0 100 50) (posNote 0 7 8) 100 50 245 176 65 rfl rfl
    (by decide) (by decide) (by decide) (by decide) (by decide) rfl

/-- `applyColorFields` at the default color components. -/
theorem applyColorFields_default (m : Note) :
    applyColorFields m (.num 245) (.num 176) (.num 65)
      = { m with customColor := "245,176,65", fontColor := "#000000" } := by
  unfold applyColorFields
  dsimp only
  rw [show clampColorVal (JsVal.num 245) = JsVal.num 245 from by decide,
    show clampColorVal (JsVal.num 176) = JsVal.num 176 from by decide,
    show clampColorVal (JsVal.num 65) = JsVal.num 65 from by decide]
  rw [show jsValToString (JsVal.num 245) ++ "," ++ jsValToString (JsVal.num 176) ++ ","
      ++ jsValToString (JsVal.num 65) = "245,176,65" from by decide]
  rw [show jsSumGT250 (JsVal.num 245) (JsVal.num 176) (JsVal.num 65) = true from by decide]
  simp

/-- The default color string parses back to its components. -/
theorem parseColor3_default :
    parseColor3 "245,176,65" = (.num 245, .num 176, .num 65) := by decide

/-- Folding an event-list concatenation. -/
theorem Store.apply_append (st : Store) (es1 es2 : List FsEvent) :
    st.apply (es1 ++ es2) = (st.apply es1).apply es2 :=
  List.foldl_append _ _ _ _

/-- `_loadText`'s file mutations never touch state records. -/
theorem loadText_apply_state (st : Store) (n : Note) :
    (st.apply (loadText n st).2).state = st.state := by
  unfold loadText
  rcases st.text n.id with _ | t <;> rfl

/-- The net effect of `_loadText` on the text map: ensure the note's own
text record exists (creating an empty one), touch nothing else. -/
theorem loadText_apply_text (st : Store) (n : Note) (j : Nat) :
    (st.apply (loadText n st).2).text j
      = if j = n.id then some ((st.text n.id).getD "") else st.text j := by
  unfold loadText
  rcases ht : st.text n.id with _ | t
  · dsimp only
    by_cases hj : j = n.id <;> simp [Store.apply, Store.apply1, hj, ht]
  · dsimp only
    by_cases hj : j = n.id <;> simp [Store.apply, hj, ht]

/-- Full evaluation of the `NoteBox` constructor over a directory with no
state record for the note: the default record (fresh sample `p2`) is
written and immediately overwritten with the serialization of the in-memory
state (construction sample `p1`); the in-memory position is additionally
clamped by the layer attach. -/
theorem new_missing_eq (env : Env) (others : List Note) (store : Store)
    (id : Nat) (f : Int) (k : Nat) (p1 p2 : Int × Int) (k1 k2 : Nat)
    (hmiss : store.state id = none)
    (hp1 : computeRandomPosition env others k = (p1, k1))
    (hp2 : computeRandomPosition env others k1 = (p2, k2)) :
    NoteBox.new env others store id "" f k
      = ({ id := id,
           x := some (max 0 (min p1.1 (env.monitor.width - 250))),
           y := some (max 0 (min p1.2 (env.monitor.height - 180))),
           width := 250, height := 180, fontSize := jsOrI f 12,
           customColor := "245,176,65", fontColor := "#000000",
           entryVisible := true, isBold := false,
           text := (store.text id).getD "" },
         [((id : Nat), FsAct.writeState
             { x := some p2.1, y := some p2.2, color := "245,176,65",
               width := some 250, height := some 180, fontSize := some (jsOrI f 12),
               entryVisible := true, isBold := false }),
          ((id : Nat), FsAct.writeState
             { x := some p1.1, y := some p1.2, color := "245,176,65",
               width := some 250, height := some 180, fontSize := some (jsOrI f 12),
               entryVisible := true, isBold := false })]
           ++ (loadText
                { id := id, x := some p1.1, y := some p1.2, width := 250,
                  height := 180, fontSize := jsOrI f 12,
                  customColor := "245,176,65", fontColor := "#000000",
                  entryVisible := true, isBold := false, text := "" }
                (store.apply
                  [((id : Nat), FsAct.writeState
                     { x := some p2.1, y := some p2.2, color := "245,176,65",
                       width := some 250, height := some 180,
                       fontSize := some (jsOrI f 12),
                       entryVisible := true, isBold := false }),
                   ((id : Nat), FsAct.writeState
                     { x := some p1.1, y := some p1.2, color := "245,176,65",
                       width := some 250, height := some 180,
                       fontSize := some (jsOrI f 12),
                       entryVisible := true, isBold := false })])).2,
         k2) := by
  unfold NoteBox.new
  rw [hp1]
  dsimp only
  rw [show (if ("" : String) = "" then "245,176,65" else "") = "245,176,65" from rfl]
  rw [loadState_missing env others
    { id := id, x := some p1.1, y := some p1.2, width := 250, height := 180,
      fontSize := jsOrI f 12, customColor := "245,176,65", fontColor := "",
      entryVisible := true, isBold := false, text := "" } store k1 p1.1 p1.2
    hmiss rfl rfl]
  rw [hp2]
  dsimp only
  rw [parseColor3_default]
  dsimp only
  rw [applyColorFields_default]
  dsimp only [Note.toStateRec]
  rw [(loadText_spec _ _).1]
  dsimp only
  rw [show ∀ (st : Store) (i j : Nat) (a b : StateRec),
      (st.apply [(i, FsAct.writeState a), (j, FsAct.writeState b)]).text = st.text
    from fun _ _ _ _ _ => rfl]
  rw [loadIntoCorrectLayer_of_some env others _ k2 p1.1 p1.2 rfl rfl]
  dsimp only
  rw [show max (jsOrI (250 : Int) 250) MIN_WIDTH = 250 from by decide,
    show max (jsOrI (180 : Int) 180) MIN_HEIGHT = 180 from by decide]

/-- Re-running the constructor over a directory already holding the
canonical default-shaped record returns the same note values (the stored
position re-clamped, which is idempotent). -/
theorem new_wellFormed_default_note (env : Env) (others : List Note)
    (store : Store) (id : Nat) (f : Int) (k : Nat) (sx sy : Int)
    (hst : store.state id = some (.wellFormed
      { x := some sx, y := some sy, color := "245,176,65", width := some 250,
        height := some 180, fontSize := some (jsOrI f 12), entryVisible := true,
        isBold := false })) :
    (NoteBox.new env others store id "" f k).1
      = { id := id,
          x := some (max 0 (min sx (env.monitor.width - 250))),
          y := some (max 0 (min sy (env.monitor.height - 180))),
          width := 250, height := 180, fontSize := jsOrI f 12,
          customColor := "245,176,65", fontColor := "#000000",
          entryVisible := true, isBold := false,
          text := (store.text id).getD "" } := by
  rcases hq : computeRandomPosition env others k with ⟨q1, k1⟩
  unfold NoteBox.new
  rw [hq]
  dsimp only
  rw [show (if ("" : String) = "" then "245,176,65" else "") = "245,176,65" from rfl]
  rw [loadState_wellFormed env others
    { id := id, x := some q1.1, y := some q1.2, width := 250, height := 180,
      fontSize := jsOrI f 12, customColor := "245,176,65", fontColor := "",
      entryVisible := true, isBold := false, text := "" } store k1
    { x := some sx, y := some sy, color := "245,176,65", width := some 250,
      height := some 180, fontSize := some (jsOrI f 12), entryVisible := true,
      isBold := false } sx sy hst rfl rfl (show ("245,176,65" : String) ≠ "" from by decide)]
  dsimp only
  rw [show max (jsOr (some (250 : Int)) 250) MIN_WIDTH = 250 from by decide,
    show max (jsOr (some (180 : Int)) 180) MIN_HEIGHT = 180 from by decide,
    jsOr_some_jsOrI]
  rw [parseColor3_default]
  dsimp only
  rw [applyColorFields_default]
  dsimp only [Note.toStateRec]
  rw [(loadText_spec _ _).1]
  dsimp only
  rw [show ∀ (st : Store) (i : Nat) (a : StateRec),
      (st.apply [(i, FsAct.writeState a)]).text = st.text
    from fun _ _ _ => rfl]
  rw [loadIntoCorrectLayer_of_some env others _ k1
    (max 0 (min sx (env.monitor.width - 250))) (max 0 (min sy (env.monitor.height - 180)))
    rfl rfl]
  dsimp only
  rw [show max (jsOrI (250 : Int) 250) MIN_WIDTH = 250 from by decide,
    show max (jsOrI (180 : Int) 180) MIN_HEIGHT = 180 from by decide]
  rw [clamp_idem, clamp_idem]

/-- Claim C5 (amended): loading state for an ID with no record synthesizes a
default — random in-bounds position, 250×180, the note's constructor font
size (12 only when the argument is falsy) and color, visible, not bold —
writes it, and immediately overwrites it with a save of the in-memory state
(whose position is the construction-time sample, not the default record's);
the final persisted record equals the serialization of the in-memory state
as of the end of `_loadState`, with the in-memory position afterwards
clamped by the layer attach.  Re-loading the same ID returns the same
values. -/
theorem missing_state_default_record (env : Env) (others others2 : List Note)
    (store : Store) (id : Nat) (f : Int) (k k3 : Nat)
    (hmiss : store.state id = none) (hrng : RngInBounds env) :
    (let p1 := (computeRandomPosition env others k).1
     let out := NoteBox.new env others store id "" f k
     let st := store.apply out.2.1
     0 ≤ p1.1 ∧ p1.1 ≤ env.monitor.width - 300 ∧
     0 ≤ p1.2 ∧ p1.2 ≤ env.monitor.height - 100 ∧
     st.state id = some (.wellFormed
       { x := some p1.1, y := some p1.2, color := "245,176,65",
         width := some 250, height := some 180, fontSize := some (jsOrI f 12),
         entryVisible := true, isBold := false }) ∧
     st.text id = some ((store.text id).getD "") ∧
     out.1 = { id := id, x := some p1.1,
               y := some (max 0 (min p1.2 (env.monitor.height - 180))),
               width := 250, height := 180, fontSize := jsOrI f 12,
               customColor := "245,176,65", fontColor := "#000000",
               entryVisible := true, isBold := false,
               text := (store.text id).getD "" } ∧
     (NoteBox.new env others2 st id "" f k3).1 = out.1) := by
  rcases hp1 : computeRandomPosition env others k with ⟨p1, k1⟩
  rcases hp2 : computeRandomPosition env others k1 with ⟨p2, k2⟩
  have hb := computeRandomPosition_elim env others
    (fun q => 0 ≤ q.1 ∧ q.1 ≤ env.monitor.width - 300 ∧
      0 ≤ q.2 ∧ q.2 ≤ env.monitor.height - 100) hrng k
  rw [hp1] at hb
  dsimp only at hb
  have hclampx : max 0 (min p1.1 (env.monitor.width - 250)) = p1.1 := by
    rcases hb with ⟨h1, h2, _, _⟩
    omega
  have hnew := new_missing_eq env others store id f k p1 p2 k1 k2 hmiss hp1 hp2
  dsimp only
  rw [hnew]
  dsimp only
  rw [hclampx]
  have hstate : ((store.apply
      [((id : Nat), FsAct.writeState
         { x := some p2.1, y := some p2.2, color := "245,176,65",
           width := some 250, height := some 180, fontSize := some (jsOrI f 12),
           entryVisible := true, isBold := false }),
       ((id : Nat), FsAct.writeState
         { x := some p1.1, y := some p1.2, color := "245,176,65",
           width := some 250, height := some 180, fontSize := some (jsOrI f 12),
           entryVisible := true, isBold := false })]).state id)
      = some (.wellFormed
         { x := some p1.1, y := some p1.2, color := "245,176,65",
           width := some 250, height := some 180, fontSize := some (jsOrI f 12),
           entryVisible := true, isBold := false }) := by
    simp [Store.apply, Store.apply1]
  refine ⟨hb.1, hb.2.1, hb.2.2.1, hb.2.2.2, ?_, ?_, rfl, ?_⟩
  · rw [Store.apply_append, loadText_apply_state]
    exact hstate
  · rw [Store.apply_append, loadText_apply_text]
    dsimp only
    rw [if_pos rfl]
    rw [show ∀ (st : Store) (i j : Nat) (a b : StateRec),
        (st.apply [(i, FsAct.writeState a), (j, FsAct.writeState b)]).text = st.text
      from fun _ _ _ _ _ => rfl]
  · have hstc : ((store.apply
        ([((id : Nat), FsAct.writeState
           { x := some p2.1, y := some p2.2, color := "245,176,65",
             width := some 250, height := some 180, fontSize := some (jsOrI f 12),
             entryVisible := true, isBold := false }),
         ((id : Nat), FsAct.writeState
           { x := some p1.1, y := some p1.2, color := "245,176,65",
             width := some 250, height := some 180, fontSize := some (jsOrI f 12),
             entryVisible := true, isBold := false })]
         ++ (loadText
              { id := id, x := some p1.1, y := some p1.2, width := 250,
                height := 180, fontSize := jsOrI f 12,
                customColor := "245,176,65", fontColor := "#000000",
                entryVisible := true, isBold := false, text := "" }
              (store.apply
                [((id : Nat), FsAct.writeState
                   { x := some p2.1, y := some p2.2, color := "245,176,65",
                     width := some 250, height := some 180,
                     fontSize := some (jsOrI f 12),
                     entryVisible := true, isBold := false }),
                 ((id : Nat), FsAct.writeState
                   { x := some p1.1, y := some p1.2, color := "245,176,65",
                     width := some 250, height := some 180,
                     fontSize := some (jsOrI f 12),
                     entryVisible := true, isBold := false })])).2)).state id)
        = some (.wellFormed
           { x := some p1.1, y := some p1.2, color := "245,176,65",
             width := some 250, height := some 180, fontSize := some (jsOrI f 12),
             entryVisible := true, isBold := false }) := by
      rw [Store.apply_append, loadText_apply_state]
      exact hstate
    rw [new_wellFormed_default_note env others2 _ id f k3 p1.1 p1.2 hstc]
    rw [hclampx]
    rw [Store.apply_append, loadText_apply_text]
    dsimp only
    rw [if_pos rfl]
    rw [show ∀ (st : Store) (i j : Nat) (a b : StateRec),
        (st.apply [(i, FsAct.writeState a), (j, FsAct.writeState b)]).text = st.text
      from fun _ _ _ _ _ => rfl]
    rw [Option.getD_some]

/-- Witness for the amended C5 at a concrete input (constructor font size
16, as `_loadAllNotes` passes). -/
theorem missing_state_default_record_witness :
    (let p1 := (computeRandomPosition envConst [] 0).1
     let out := NoteBox.new envConst [] emptyStore 0 "" 16 0
     let st := emptyStore.apply out.2.1
     0 ≤ p1.1 ∧ p1.1 ≤ envConst.monitor.width - 300 ∧
     0 ≤ p1.2 ∧ p1.2 ≤ envConst.monitor.height - 100 ∧
     st.state 0 = some (.wellFormed
       { x := some p1.1, y := some p1.2, color := "245,176,65",
         width := some 250, height := some 180, fontSize := some (jsOrI 16 12),
         entryVisible := true, isBold := false }) ∧
     st.text 0 = some ((emptyStore.text 0).getD "") ∧
     out.1 = { id := 0, x := some p1.1,
               y := some (max 0 (min p1.2 (envConst.monitor.height - 180))),
               width := 250, height := 180, fontSize := jsOrI 16 12,
               customColor := "245,176,65", fontColor := "#000000",
               entryVisible := true, isBold := false,
               text := (emptyStore.text 0).getD "" } ∧
     (NoteBox.new envConst [] st 0 "" 16 0).1 = out.1) :=
  missing_state_default_record envConst [] [] emptyStore 0 16 0 0 rfl
    (fun _ => ⟨(by decide : (0 : Int) ≤ 7), (by decide : (7 : Int) ≤ 1920 - 300),
      (by decide : (0 : Int) ≤ 20), (by decide : (20 : Int) ≤ 1080 - 100)⟩)

/-- Claim C5 counterexample: with the constructor font size the manager
actually passes (16), the persisted default record carries font size 16,
not 12; the claim's "font size 12" fails. -/
theorem default_record_fontSize_not_12 :
    ((emptyStore.apply (NoteBox.new envConst [] emptyStore 0 "" 16 0).2.1).state 0)
      = some (.wellFormed
        { x := some 7, y := some 20, color := "245,176,65", width := some 250,
          height := some 180, fontSize := some 16, entryVisible := true,
          isBold := false }) ∧
    (16 : Int) ≠ 12 := by
  exact ⟨by decide, by decide⟩

/-- Full evaluation of the `NoteBox` constructor over a directory whose
record for the note is unparsable: the catch block samples a fresh clamped
position (`p2`; the construction sample `p1` is discarded), resets the size
and flags, keeps font size and color, and the style-application save writes
the resulting state. -/
theorem new_malformed_eq (env : Env) (others : List Note) (store : Store)
    (id : Nat) (f : Int) (k : Nat) (p1 p2 : Int × Int) (k1 k2 : Nat)
    (hmal : store.state id = some .malformed)
    (hp1 : computeRandomPosition env others k = (p1, k1))
    (hp2 : computeRandomPosition env others k1 = (p2, k2)) :
    NoteBox.new env others store id "" f k
      = ({ id := id,
           x := some (max 0 (min p2.1 (env.monitor.width - 250))),
           y := some (max 0 (min p2.2 (env.monitor.height - 180))),
           width := 250, height := 180, fontSize := jsOrI f 12,
           customColor := "245,176,65", fontColor := "#000000",
           entryVisible := true, isBold := false,
           text := (store.text id).getD "" },
         [((id : Nat), FsAct.writeState
             { x := some (max 0 (min p2.1 (env.monitor.width - 250))),
               y := some (max 0 (min p2.2 (env.monitor.height - 180))),
               color := "245,176,65", width := some 250, height := some 180,
               fontSize := some (jsOrI f 12),
               entryVisible := true, isBold := false })]
           ++ (loadText
                { id := id,
                  x := some (max 0 (min p2.1 (env.monitor.width - 250))),
                  y := some (max 0 (min p2.2 (env.monitor.height - 180))),
                  width := 250, height := 180, fontSize := jsOrI f 12,
                  customColor := "245,176,65", fontColor := "#000000",
                  entryVisible := true, isBold := false, text := "" }
                (store.apply
                  [((id : Nat), FsAct.writeState
                     { x := some (max 0 (min p2.1 (env.monitor.width - 250))),
                       y := some (max 0 (min p2.2 (env.monitor.height - 180))),
                       color := "245,176,65", width := some 250, height := some 180,
                       fontSize := some (jsOrI f 12),
                       entryVisible := true, isBold := false })])).2,
         k2) := by
  unfold NoteBox.new
  rw [hp1]
  dsimp only
  rw [show (if ("" : String) = "" then "245,176,65" else "") = "245,176,65" from rfl]
  rw [loadState_malformed env others
    { id := id, x := some p1.1, y := some p1.2, width := 250, height := 180,
      fontSize := jsOrI f 12, customColor := "245,176,65", fontColor := "",
      entryVisible := true, isBold := false, text := "" } store k1 hmal]
  rw [hp2]
  dsimp only
  rw [parseColor3_default]
  dsimp only
  rw [applyColorFields_default]
  dsimp only [Note.toStateRec]
  rw [(loadText_spec _ _).1]
  dsimp only
  rw [show ∀ (st : Store) (i : Nat) (a : StateRec),
      (st.apply [(i, FsAct.writeState a)]).text = st.text
    from fun _ _ _ => rfl]
  rw [loadIntoCorrectLayer_of_some env others _ k2
    (max 0 (min p2.1 (env.monitor.width - 250)))
    (max 0 (min p2.2 (env.monitor.height - 180))) rfl rfl]
  dsimp only
  rw [show max (jsOrI (250 : Int) 250) MIN_WIDTH = 250 from by decide,
    show max (jsOrI (180 : Int) 180) MIN_HEIGHT = 180 from by decide]
  rw [clamp_idem, clamp_idem]

/-- Claim C6 (amended): an unparsable state record is replaced without any
failure reaching the caller, but not through the missing-record
default-generation function: the catch block falls back to in-memory
defaults — a fresh random clamped position (the construction-time sample is
discarded), size 250×180, content visible, not bold, while font size and
color keep their current values — and the style-application save persists
exactly that state (position pre-clamped, unlike the missing-record path,
which persists the unclamped construction sample). -/
theorem malformed_state_fallback (env : Env) (others : List Note)
    (store : Store) (id : Nat) (f : Int) (k : Nat)
    (hmal : store.state id = some .malformed) (hrng : RngInBounds env) :
    (let k1 := (computeRandomPosition env others k).2
     let p2 := (computeRandomPosition env others k1).1
     let out := NoteBox.new env others store id "" f k
     let st := store.apply out.2.1
     0 ≤ p2.1 ∧ p2.1 ≤ env.monitor.width - 300 ∧
     0 ≤ p2.2 ∧ p2.2 ≤ env.monitor.height - 100 ∧
     out.1 = { id := id, x := some p2.1,
               y := some (max 0 (min p2.2 (env.monitor.height - 180))),
               width := 250, height := 180, fontSize := jsOrI f 12,
               customColor := "245,176,65", fontColor := "#000000",
               entryVisible := true, isBold := false,
               text := (store.text id).getD "" } ∧
     st.state id = some (.wellFormed
       { x := some p2.1,
         y := some (max 0 (min p2.2 (env.monitor.height - 180))),
         color := "245,176,65", width := some 250, height := some 180,
         fontSize := some (jsOrI f 12), entryVisible := true,
         isBold := false }) ∧
     st.text id = some ((store.text id).getD "")) := by
  rcases hp1 : computeRandomPosition env others k with ⟨p1, k1⟩
  rcases hp2 : computeRandomPosition env others k1 with ⟨p2, k2⟩
  have hb := computeRandomPosition_elim env others
    (fun q => 0 ≤ q.1 ∧ q.1 ≤ env.monitor.width - 300 ∧
      0 ≤ q.2 ∧ q.2 ≤ env.monitor.height - 100) hrng k1
  rw [hp2] at hb
  dsimp only at hb
  have hclampx : max 0 (min p2.1 (env.monitor.width - 250)) = p2.1 := by
    rcases hb with ⟨h1, h2, _, _⟩
    omega
  have hnew := new_malformed_eq env others store id f k p1 p2 k1 k2 hmal hp1 hp2
  dsimp only
  rw [hp2]
  dsimp only
  rw [hnew]
  dsimp only
  rw [hclampx]
  refine ⟨hb.1, hb.2.1, hb.2.2.1, hb.2.2.2, rfl, ?_, ?_⟩
  · rw [Store.apply_append, loadText_apply_state]
    simp [Store.apply, Store.apply1]
  · rw [Store.apply_append, loadText_apply_text]
    dsimp only
    rw [if_pos rfl]
    rw [show ∀ (st : Store) (i : Nat) (a : StateRec),
        (st.apply [(i, FsAct.writeState a)]).text = st.text
      from fun _ _ _ => rfl]

/-- Witness for the amended C6 at a concrete input. -/
theorem malformed_state_fallback_witness :
    (let k1 := (computeRandomPosition envConst [] 0).2
     let p2 := (computeRandomPosition envConst [] k1).1
     let out := NoteBox.new envConst [] malformedStore0 0 "" 16 0
     let st := malformedStore0.apply out.2.1
     0 ≤ p2.1 ∧ p2.1 ≤ envConst.monitor.width - 300 ∧
     0 ≤ p2.2 ∧ p2.2 ≤ envConst.monitor.height - 100 ∧
     out.1 = { id := 0, x := some p2.1,
               y := some (max 0 (min p2.2 (envConst.monitor.height - 180))),
               width := 250, height := 180, fontSize := jsOrI 16 12,
               customColor := "245,176,65", fontColor := "#000000",
               entryVisible := true, isBold := false,
               text := (malformedStore0.text 0).getD "" } ∧
     st.state 0 = some (.wellFormed
       { x := some p2.1,
         y := some (max 0 (min p2.2 (envConst.monitor.height - 180))),
         color := "245,176,65", width := some 250, height := some 180,
         fontSize := some (jsOrI 16 12), entryVisible := true,
         isBold := false }) ∧
     st.text 0 = some ((malformedStore0.text 0).getD "")) :=
  malformed_state_fallback envConst [] malformedStore0 0 16 0 rfl
    (fun _ => ⟨(by decide : (0 : Int) ≤ 7), (by decide : (7 : Int) ≤ 1920 - 300),
      (by decide : (0 : Int) ≤ 20), (by decide : (20 : Int) ≤ 1080 - 100)⟩)

/-- Claim C6 counterexample: the malformed-record path is not identical to
the missing-record path — over the same sample stream the two persist
different records (the missing path persists the construction-time sample
(0, 20), the malformed path a later clamped sample (100, 20)). -/
theorem malformed_differs_from_missing :
    ((emptyStore.apply (NoteBox.new envStep [] emptyStore 0 "" 16 0).2.1).state 0
      = some (.wellFormed
        { x := some 0, y := some 20, color := "245,176,65", width := some 250,
          height := some 180, fontSize := some 16, entryVisible := true,
          isBold := false })) ∧
    ((malformedStore0.apply
        (NoteBox.new envStep [] malformedStore0 0 "" 16 0).2.1).state 0
      = some (.wellFormed
        { x := some 100, y := some 20, color := "245,176,65", width := some 250,
          height := some 180, fontSize := some 16, entryVisible := true,
          isBold := false })) ∧
    ((emptyStore.apply (NoteBox.new envStep [] emptyStore 0 "" 16 0).2.1).state 0
      ≠ (malformedStore0.apply
          (NoteBox.new envStep [] malformedStore0 0 "" 16 0).2.1).state 0) := by
  refine ⟨by decide, by decide, by decide⟩
